import Mathlib

/-!
Verification development for the loan-default predictor repository.

The repository has three Python files:
  * `src/preprocess.py` — `clean_raw_df`, the feature Transformer over a
    pandas DataFrame;
  * `app.py` — the FastAPI inference endpoint `predict_loan_status`;
  * `src/train_model.py` — the training orchestrator `train_and_save`.

We shallowly embed pandas DataFrames as ordered association lists of named
columns; a cell is either a numeric value (modelled as `ℚ`; none of the
verified properties depends on floating-point rounding), a string, or null
(pandas `NaN`).  Pandas operations used by the source are embedded
per-operation, with the per-column pipeline of `clean_raw_df` reproduced
statement by statement.  Python exceptions (the `mode()[0]` lookup on an
empty mode, `int(NaN)`) are modelled by `Except`.
-/

set_option linter.unusedVariables false

/- Batteries marks the arithmetic of `Rat` `@[irreducible]`; re-allow
unfolding so that `decide` can evaluate concrete pipeline runs (the kernel
itself always unfolds these definitions). -/
attribute [local semireducible] Rat.add Rat.mul Rat.inv Rat.sub Rat.ofScientific

deriving instance DecidableEq for Except


/-- One cell of a DataFrame: a float (modelled exactly as `ℚ`), a string, or
pandas `NaN` / `None` (null). -/
inductive Val where
  | num (q : ℚ)
  | str (s : String)
  | null
  deriving DecidableEq, Repr

/-- A column is the ordered list of its cells. -/
abbrev Col := List Val

/-- A DataFrame: ordered association list of (column name, column). -/
structure DF where
  cols : List (String × Col)
  deriving DecidableEq, Repr

/-- String membership test, unfolding-friendly. -/
def memStr (n : String) : List String → Bool
  | [] => false
  | m :: rest => if m = n then true else memStr n rest

/-- Lookup of the first column with the given name (pandas `df[name]`). -/
def lookupCol (n : String) : List (String × Col) → Option Col
  | [] => none
  | (m, c) :: rest => if m = n then some c else lookupCol n rest

/-- Replace every column with the given name (pandas `df[name] = col` when
the column exists). -/
def replaceColList (n : String) (c : Col) : List (String × Col) → List (String × Col)
  | [] => []
  | (m, d) :: rest =>
    if m = n then (n, c) :: replaceColList n c rest
    else (m, d) :: replaceColList n c rest

/-- Whether the DataFrame has a column of this name (`name in df.columns`). -/
def DF.hasCol (df : DF) (n : String) : Bool :=
  match lookupCol n df.cols with
  | some _ => true
  | none => false

/-- The column of this name; `[]` when absent (guards in the source ensure
the absent case is never read). -/
def DF.get (df : DF) (n : String) : Col :=
  (lookupCol n df.cols).getD []

/-- pandas `df[name] = col`: replace the column in place when it exists,
append it at the end otherwise. -/
def DF.set (df : DF) (n : String) (c : Col) : DF :=
  if df.hasCol n then ⟨replaceColList n c df.cols⟩ else ⟨df.cols ++ [(n, c)]⟩

/-- pandas `df.drop(columns=ns, errors='ignore')`. -/
def DF.dropCols (df : DF) (ns : List String) : DF :=
  ⟨df.cols.filter fun p => !(memStr p.1 ns)⟩

/-- Number of rows (length of the first column; 0 for a column-free frame). -/
def DF.nrows (df : DF) : ℕ :=
  match df.cols with
  | [] => 0
  | p :: _ => p.2.length

/-- The ordered column names. -/
def DF.names (df : DF) : List String := df.cols.map (·.1)

/-- Whether a cell is null. -/
def isNullV : Val → Bool
  | .null => true
  | _ => false

/-- Whether a cell is numeric. -/
def isNumV : Val → Bool
  | .num _ => true
  | _ => false

/-- The numeric cells of a column, in order (pandas numeric ops skip NaN). -/
def Col.nums (c : Col) : List ℚ :=
  c.filterMap fun v => match v with | .num q => some q | _ => none

/-- The non-null cells of a column (pandas `mode()` drops NaN). -/
def Col.nonNulls (c : Col) : Col :=
  c.filter fun v => !(isNullV v)

/-- pandas `Series.fillna(v)`: replace null cells by `v` (a null fallback,
as produced by `fillna(median())` on an all-null column, leaves nulls). -/
def fillnaV (fallback : Val) (c : Col) : Col :=
  c.map fun v => match v with | .null => fallback | w => w

/-- pandas `Series.replace(old, new)` with scalar arguments: exact-match
cell replacement. -/
def replaceV (old new : Val) (c : Col) : Col :=
  c.map fun v => if v = old then new else v

/-- Sort a list of rationals ascending. -/
def sortQ (l : List ℚ) : List ℚ := List.insertionSort (· ≤ ·) l

/-- pandas `Series.median()` over the numeric (non-null) values: the middle
element of the sorted values, or the mean of the two middle ones; `none`
when there are no values. -/
def medianQ (l : List ℚ) : Option ℚ :=
  match sortQ l with
  | [] => none
  | a :: rest =>
    let s := a :: rest
    if s.length % 2 = 1 then some (s.getD (s.length / 2) 0)
    else some ((s.getD (s.length / 2 - 1) 0 + s.getD (s.length / 2) 0) / 2)

/-- `Series.median()` as a cell (NaN when the column has no numeric value). -/
def Col.median (c : Col) : Val :=
  match medianQ c.nums with
  | some q => .num q
  | none => .null

/-- Number of occurrences of a cell value in a column. -/
def countV (v : Val) : List Val → ℕ
  | [] => 0
  | w :: rest => (if w = v then 1 else 0) + countV v rest

/-- Character-list lexicographic strict order (by code point). -/
def charListLtb : List Char → List Char → Bool
  | [], [] => false
  | [], _ :: _ => true
  | _ :: _, [] => false
  | a :: as, b :: bs =>
    if a.toNat < b.toNat then true
    else if b.toNat < a.toNat then false
    else charListLtb as bs

/-- Strict order on cells used for pandas' ascending sort of tied mode
values: numbers by value, strings lexicographically. -/
def valLtb : Val → Val → Bool
  | .num p, .num q => decide (p < q)
  | .num _, .str _ => true
  | .str s, .str t => charListLtb s.toList t.toList
  | _, _ => false

/-- One comparison step of the mode choice: keep the more frequent of the
current best and the next candidate, ties broken by the smaller value. -/
def modeStep (cand : List Val) (acc : Option Val) (v : Val) : Option Val :=
  match acc with
  | none => some v
  | some w =>
    let cv := countV v cand
    let cw := countV w cand
    if cw < cv then some v
    else if cv = cw then (if valLtb v w then some v else some w)
    else some w

/-- Among the candidate values, the most frequent one, ties broken by the
smallest (pandas `Series.mode()` returns the tied values sorted ascending,
and the source always takes `mode()[0]`). -/
def modePick (cand : List Val) : Option Val :=
  cand.foldl (modeStep cand) none

/-- pandas `Series.mode()[0]` over the non-null cells; `none` models the
empty mode of an all-null column, on which `[0]` raises. -/
def Col.mode (c : Col) : Option Val := modePick c.nonNulls

/-- pandas `Series.quantile(p)` (linear interpolation) over the numeric
values; `none` when there are none. -/
def quantileQ (p : ℚ) (l : List ℚ) : Option ℚ :=
  let s := sortQ l
  match s with
  | [] => none
  | _ :: _ =>
    let n := s.length
    let pos : ℚ := p * ((n : ℚ) - 1)
    let i : ℕ := (Int.floor pos).toNat
    let frac : ℚ := pos - (i : ℚ)
    let lo := s.getD i 0
    some (lo + frac * (s.getD (i + 1) lo - lo))

/-- Python `int(x)` / `astype(int)` on a float: truncation toward zero. -/
def qtrunc (q : ℚ) : ℚ :=
  if 0 ≤ q then ((⌊q⌋ : ℤ) : ℚ) else ((⌈q⌉ : ℤ) : ℚ)

/-- Cell-level `astype(int)` (nulls are impossible at its use sites; kept
as the identity on non-numeric cells). -/
def astypeIntV : Val → Val
  | .num q => .num (qtrunc q)
  | w => w

/-- Cell addition (`+` on columns): NaN-propagating. -/
def addV : Val → Val → Val
  | .num a, .num b => .num (a + b)
  | _, _ => .null

/-- Cell division (`/` on columns): NaN-propagating.  Division by zero
yields float `inf`/`NaN` in pandas; it is modelled as null and every
verified statement about quotients assumes a nonzero divisor. -/
def divV : Val → Val → Val
  | .num a, .num b => if b = 0 then .null else .num (a / b)
  | _, _ => .null

/-- Value of a decimal digit. -/
def digToNat (c : Char) : Option ℕ :=
  let d := c.toNat
  if 48 ≤ d ∧ d ≤ 57 then some (d - 48) else none

/-- Accumulate decimal digits. -/
def digitsAux (acc : ℕ) : List Char → Option ℕ
  | [] => some acc
  | c :: cs =>
    match digToNat c with
    | some d => digitsAux (acc * 10 + d) cs
    | none => none

/-- A nonempty run of decimal digits as a natural number. -/
def digitsToNat : List Char → Option ℕ
  | [] => none
  | c :: cs => digitsAux 0 (c :: cs)

/-- Split a character list at the first dot. -/
def splitDot : List Char → List Char × Option (List Char)
  | [] => ([], none)
  | c :: cs =>
    if c = '.' then ([], some cs)
    else
      let r := splitDot cs
      (c :: r.1, r.2)

/-- Powers of ten. -/
def pow10 : ℕ → ℚ
  | 0 => 1
  | n + 1 => 10 * pow10 n

/-- Unsigned decimal number: digits with an optional fractional part. -/
def parseUnsigned (cs : List Char) : Option ℚ :=
  match splitDot cs with
  | (ip, none) => (digitsToNat ip).map fun n => (n : ℚ)
  | ([], some []) => none
  | (ip, some fp) =>
    let ipv : Option ℕ := if ip = [] then some 0 else digitsToNat ip
    let fpv : Option ℕ := if fp = [] then some 0 else digitsToNat fp
    match ipv, fpv with
    | some a, some b => some ((a : ℚ) + (b : ℚ) / pow10 fp.length)
    | _, _ => none

/-- `pd.to_numeric` on a single string: optional sign, then a decimal
number (the decimal forms are the ones the Dependents data can contain). -/
def parseNum (s : String) : Option ℚ :=
  match s.toList with
  | [] => none
  | '-' :: rest => (parseUnsigned rest).map fun q => -q
  | '+' :: rest => parseUnsigned rest
  | cs => parseUnsigned cs

-- sanity checks on the pandas operation models
example : medianQ [3, 1, 2] = some 2 := by with_unfolding_all decide
example : medianQ [4, 1, 2, 3] = some (5 / 2) := by with_unfolding_all decide
example : medianQ [] = none := by with_unfolding_all decide
example : Col.mode [Val.str "a", Val.null, Val.str "b", Val.str "a"] = some (Val.str "a") := by
  with_unfolding_all decide
example : Col.mode [Val.null, Val.null] = none := by with_unfolding_all decide
example : quantileQ (1 / 2) [1, 2, 3, 4] = some (5 / 2) := by with_unfolding_all decide
example : quantileQ (1 / 4) [3, 3, 5, 5] = some 3 := by with_unfolding_all decide
example : parseNum "3" = some 3 := by with_unfolding_all decide
example : parseNum "2.5" = some (5 / 2) := by with_unfolding_all decide
example : parseNum "3+" = none := by with_unfolding_all decide
example : parseNum "nan" = none := by with_unfolding_all decide
example : parseNum "-1.25" = some (-(5 / 4)) := by with_unfolding_all decide

/-! ## The feature Transformer: `clean_raw_df` (src/preprocess.py)

Each definition below embeds one guarded block of the source, in source
order.  Blocks whose `mode()[0]` can hit an empty mode return `Except`
(pandas raises a lookup error there); all other blocks are total. -/

/-- Line 22: `df['LoanAmount'].fillna(df['LoanAmount'].median())` — the
median of an all-null column is NaN, and `fillna(NaN)` leaves the nulls. -/
def imputedLoanCol (c : Col) : Col := fillnaV c.median c

/-- Lines 21-22. -/
def imputeLoanAmount (df : DF) : DF :=
  if df.hasCol "LoanAmount" then
    df.set "LoanAmount" (imputedLoanCol (df.get "LoanAmount"))
  else df

/-- Lines 24-25: `df['ApplicantIncome'].fillna(0)`. -/
def imputeApplicantIncome (df : DF) : DF :=
  if df.hasCol "ApplicantIncome" then
    df.set "ApplicantIncome" (fillnaV (.num 0) (df.get "ApplicantIncome"))
  else df

/-- Lines 27-28: `df['CoapplicantIncome'].fillna(0)`. -/
def imputeCoapplicantIncome (df : DF) : DF :=
  if df.hasCol "CoapplicantIncome" then
    df.set "CoapplicantIncome" (fillnaV (.num 0) (df.get "CoapplicantIncome"))
  else df

/-- Lines 30-31: `fillna(df['Loan_Amount_Term'].mode()[0])` — `mode()` of an
all-null column is empty and the `[0]` lookup raises. -/
def imputeLoanAmountTerm (df : DF) : Except String DF :=
  if df.hasCol "Loan_Amount_Term" then
    match (df.get "Loan_Amount_Term").mode with
    | some m => .ok (df.set "Loan_Amount_Term" (fillnaV m (df.get "Loan_Amount_Term")))
    | none => .error "KeyError: 0 (empty mode of Loan_Amount_Term)"
  else .ok df

/-- Lines 34-38: Credit_History is the one mode imputation guarded against
an empty mode, falling back to 1.0. -/
def imputeCreditHistory (df : DF) : DF :=
  if df.hasCol "Credit_History" then
    match (df.get "Credit_History").mode with
    | some m => df.set "Credit_History" (fillnaV m (df.get "Credit_History"))
    | none => df.set "Credit_History" (fillnaV (.num 1) (df.get "Credit_History"))
  else df

/-- Lines 40-41: `df['Self_Employed'].fillna('No')`. -/
def imputeSelfEmployed (df : DF) : DF :=
  if df.hasCol "Self_Employed" then
    df.set "Self_Employed" (fillnaV (.str "No") (df.get "Self_Employed"))
  else df

/-- Lines 43-44: `fillna(df['Gender'].mode()[0])`, unguarded. -/
def imputeGender (df : DF) : Except String DF :=
  if df.hasCol "Gender" then
    match (df.get "Gender").mode with
    | some m => .ok (df.set "Gender" (fillnaV m (df.get "Gender")))
    | none => .error "KeyError: 0 (empty mode of Gender)"
  else .ok df

/-- Lines 46-47: `fillna(df['Married'].mode()[0])`, unguarded. -/
def imputeMarried (df : DF) : Except String DF :=
  if df.hasCol "Married" then
    match (df.get "Married").mode with
    | some m => .ok (df.set "Married" (fillnaV m (df.get "Married")))
    | none => .error "KeyError: 0 (empty mode of Married)"
  else .ok df

/-- Lines 49-50: `fillna(df['Dependents'].mode()[0])`, unguarded. -/
def imputeDependentsNa (df : DF) : Except String DF :=
  if df.hasCol "Dependents" then
    match (df.get "Dependents").mode with
    | some m => .ok (df.set "Dependents" (fillnaV m (df.get "Dependents")))
    | none => .error "KeyError: 0 (empty mode of Dependents)"
  else .ok df

/-- Lines 57-59 on one cell: `astype(str)` then `.replace('3+', '3')` then
`pd.to_numeric(errors='coerce')`.  A null cell renders as the string "nan",
which `to_numeric` coerces back to NaN; a numeric cell renders as a float
literal, which `to_numeric` parses back to the same value. -/
def depCoerceV : Val → Val
  | .null => .null
  | .str s =>
    if s = "3+" then .num 3
    else
      match parseNum s with
      | some q => .num q
      | none => .null
  | .num q => .num q

/-- Lines 55-62: Dependents cleanup.  After coercion, remaining nulls are
filled with the mode of the coerced column (lines 60-61, raising on an
empty mode), then `astype(int)` truncates (line 62). -/
def cleanupDependents (df : DF) : Except String DF :=
  if df.hasCol "Dependents" then
    let c2 := (df.get "Dependents").map depCoerceV
    if c2.any isNullV then
      match Col.mode c2 with
      | some m => .ok (df.set "Dependents" ((fillnaV m c2).map astypeIntV))
      | none => .error "KeyError: 0 (empty mode of coerced Dependents)"
    else .ok (df.set "Dependents" (c2.map astypeIntV))
  else .ok df

/-- Lines 68-71: `TotalIncome`, added unconditionally — as a sum when both
income columns are present, as an all-NaN column otherwise. -/
def addTotalIncome (df : DF) : DF :=
  if df.hasCol "ApplicantIncome" && df.hasCol "CoapplicantIncome" then
    df.set "TotalIncome"
      (List.zipWith addV (df.get "ApplicantIncome") (df.get "CoapplicantIncome"))
  else df.set "TotalIncome" (List.replicate df.nrows .null)

/-- Line 76: the replacement value for a zero LoanAmount — the median of
the column as it stands at line 74, or 1.0 when the whole column is null. -/
def loanDivisorMedian (c : Col) : Val :=
  if c.all isNullV then .num 1 else c.median

/-- Line 77: `df['LoanAmount'].replace(0, loan_median)` — the LoanAmount
column exactly as it enters the `Income_to_Loan_Ratio` division. -/
def loanColAtDivision (c : Col) : Col :=
  replaceV (.num 0) (loanDivisorMedian c) c

/-- Lines 74-81: zero-replacement and the ratio when LoanAmount is present,
an all-NaN ratio column otherwise. -/
def loanRatioStep (df : DF) : DF :=
  if df.hasCol "LoanAmount" then
    let c2 := loanColAtDivision (df.get "LoanAmount")
    let df2 := df.set "LoanAmount" c2
    df2.set "Income_to_Loan_Ratio" (List.zipWith divV (df2.get "TotalIncome") c2)
  else df.set "Income_to_Loan_Ratio" (List.replicate df.nrows .null)

/-- Lines 84-89: `np.where(coapp == 0, applicant, applicant / coapp)`. -/
def coappRatioStep (df : DF) : DF :=
  if df.hasCol "ApplicantIncome" && df.hasCol "CoapplicantIncome" then
    df.set "Applicant_to_Coapp_Ratio"
      (List.zipWith (fun a c => if c = Val.num 0 then a else divV a c)
        (df.get "ApplicantIncome") (df.get "CoapplicantIncome"))
  else df

/-- Lines 95-97: cap ApplicantIncome at the 99th percentile, cast to int.
Python evaluates `int(cap_val)` before the masked assignment, so an
all-null column (NaN percentile) raises. -/
def capApplicantIncome (df : DF) : Except String DF :=
  if df.hasCol "ApplicantIncome" then
    match quantileQ (99 / 100) (df.get "ApplicantIncome").nums with
    | some cap =>
      .ok (df.set "ApplicantIncome" ((df.get "ApplicantIncome").map fun v =>
        match v with
        | .num q => if cap < q then .num (qtrunc cap) else .num q
        | w => w))
    | none => .error "ValueError: cannot convert float NaN to integer"
  else .ok df

/-- Lines 100-107: IQR clipping of LoanAmount; with no numeric values the
bounds are NaN, the masks are all-False and nothing changes. -/
def capLoanAmount (df : DF) : DF :=
  if df.hasCol "LoanAmount" then
    match quantileQ (1 / 4) (Col.nums (df.get "LoanAmount")),
          quantileQ (3 / 4) (Col.nums (df.get "LoanAmount"))  with
    | some q1, some q3 =>
      let iqr := q3 - q1
      let lower := q1 - 3 / 2 * iqr
      let upper := q3 + 3 / 2 * iqr
      let c1 : Col := (df.get "LoanAmount").map fun v =>
        match v with
        | .num q => if q < lower then .num lower else .num q
        | w => w
      let c2 : Col := c1.map fun v =>
        match v with
        | .num q => if upper < q then .num upper else .num q
        | w => w
      df.set "LoanAmount" c2
    | _, _ => df
  else df

/-- Lines 113-114 on one cell: `map({'Male':1,'Female':0})`, `fillna(0)`,
`astype(int)` — composite: Male becomes 1, everything else 0. -/
def encodeGender (df : DF) : DF :=
  if df.hasCol "Gender" then
    df.set "Gender" ((df.get "Gender").map fun v =>
      if v = Val.str "Male" then Val.num 1 else Val.num 0)
  else df

/-- Lines 116-117: Yes becomes 1, everything else 0. -/
def encodeMarried (df : DF) : DF :=
  if df.hasCol "Married" then
    df.set "Married" ((df.get "Married").map fun v =>
      if v = Val.str "Yes" then Val.num 1 else Val.num 0)
  else df

/-- Lines 119-120: Graduate becomes 1, everything else 0. -/
def encodeEducation (df : DF) : DF :=
  if df.hasCol "Education" then
    df.set "Education" ((df.get "Education").map fun v =>
      if v = Val.str "Graduate" then Val.num 1 else Val.num 0)
  else df

/-- Lines 122-123: Yes becomes 1, everything else 0. -/
def encodeSelfEmployed (df : DF) : DF :=
  if df.hasCol "Self_Employed" then
    df.set "Self_Employed" ((df.get "Self_Employed").map fun v =>
      if v = Val.str "Yes" then Val.num 1 else Val.num 0)
  else df

/-- Indicator cell of `get_dummies` for one category. -/
def indicatorV (s : String) (v : Val) : Val :=
  if v = Val.str s then .num 1 else .num 0

/-- Lines 128-139: one-hot encode Property_Area.  `get_dummies` followed by
inserting the missing canonical categories with 0 and selecting exactly
`Property_Rural, Property_Semiurban, Property_Urban` in that order reduces
to one indicator column per canonical category (categories outside the
three are dropped by the selection); the original column is dropped and
the three columns are concatenated at the end, cast to int. -/
def propertyStep (df : DF) : DF :=
  if df.hasCol "Property_Area" then
    DF.mk ((df.dropCols ["Property_Area"]).cols ++
      [("Property_Rural", (df.get "Property_Area").map (indicatorV "Rural")),
       ("Property_Semiurban", (df.get "Property_Area").map (indicatorV "Semiurban")),
       ("Property_Urban", (df.get "Property_Area").map (indicatorV "Urban"))])
  else df

/-- Lines 144-146: `map({'Y':1,'N':0})` with no fillna — unrecognized
labels become NaN. -/
def mapLoanStatus (df : DF) : DF :=
  if df.hasCol "Loan_Status" then
    df.set "Loan_Status" ((df.get "Loan_Status").map fun v =>
      if v = Val.str "Y" then Val.num 1
      else if v = Val.str "N" then Val.num 0
      else Val.null)
  else df

/-- `clean_raw_df` (src/preprocess.py lines 5-149): the blocks above in
source order.  The input frame is never modified (`df = df.copy()` at line
15); see the heap-passing rendition below for that aspect. -/
def clean_raw_df (df : DF) : Except String DF := do
  let df1 := imputeLoanAmount df
  let df2 := imputeApplicantIncome df1
  let df3 := imputeCoapplicantIncome df2
  let df4 ← imputeLoanAmountTerm df3
  let df5 := imputeCreditHistory df4
  let df6 := imputeSelfEmployed df5
  let df7 ← imputeGender df6
  let df8 ← imputeMarried df7
  let df9 ← imputeDependentsNa df8
  let df10 ← cleanupDependents df9
  let df11 := addTotalIncome df10
  let df12 := loanRatioStep df11
  let df13 := coappRatioStep df12
  let df14 ← capApplicantIncome df13
  let df15 := capLoanAmount df14
  let df16 := encodeGender df15
  let df17 := encodeMarried df16
  let df18 := encodeEducation df17
  let df19 := encodeSelfEmployed df18
  let df20 := propertyStep df19
  return mapLoanStatus df20

/-! ## The inference endpoint (app.py) -/

/-- The pydantic request model `LoanApplication` (app.py lines 25-37),
field for field, with its `Optional` fields. -/
structure LoanApplication where
  Loan_ID : String
  Gender : String
  Married : String
  Dependents : Option String
  Education : String
  Self_Employed : String
  ApplicantIncome : ℚ
  CoapplicantIncome : ℚ
  LoanAmount : Option ℚ
  Loan_Amount_Term : Option ℚ
  Credit_History : Option ℚ
  Property_Area : String
  deriving DecidableEq, Repr

/-- An optional string as a cell. -/
def cellOptStr : Option String → Val
  | some s => .str s
  | none => .null

/-- An optional float as a cell. -/
def cellOptNum : Option ℚ → Val
  | some q => .num q
  | none => .null

/-- `pd.DataFrame([r.model_dump() for r in records])`: one column per
field, in field declaration order, one row per record. -/
def toDFBatch (b : List LoanApplication) : DF :=
  ⟨[("Loan_ID", b.map fun r => .str r.Loan_ID),
    ("Gender", b.map fun r => .str r.Gender),
    ("Married", b.map fun r => .str r.Married),
    ("Dependents", b.map fun r => cellOptStr r.Dependents),
    ("Education", b.map fun r => .str r.Education),
    ("Self_Employed", b.map fun r => .str r.Self_Employed),
    ("ApplicantIncome", b.map fun r => .num r.ApplicantIncome),
    ("CoapplicantIncome", b.map fun r => .num r.CoapplicantIncome),
    ("LoanAmount", b.map fun r => cellOptNum r.LoanAmount),
    ("Loan_Amount_Term", b.map fun r => cellOptNum r.Loan_Amount_Term),
    ("Credit_History", b.map fun r => cellOptNum r.Credit_History),
    ("Property_Area", b.map fun r => .str r.Property_Area)]⟩

/-- app.py line 41: `pd.DataFrame([application.model_dump()])` — the
one-element batch. -/
def toDF (application : LoanApplication) : DF := toDFBatch [application]

/-- The loaded model artifact (app.py line 14), opaque: only its
`predict` and `predict_proba` capabilities on the first row are used.
`predictClass` is `model.predict(X)[0]`; `predictProba` is
`model.predict_proba(X)[0][1]`, the positive-class probability. -/
structure Model where
  predictClass : DF → ℤ
  predictProba : DF → ℚ

/-- The endpoint's JSON response `{"prediction": ..., "probability": ...}`. -/
structure PredictResponse where
  prediction : ℤ
  probability : ℚ
  deriving DecidableEq, Repr

/-- `predict_loan_status` (app.py lines 39-52).  `feature_cols` is the
feature list loaded at startup (line 15); the body never consults it.
Line 47 computes `prediction = int(pred_prob >= 0.5)` into a local that
the response does not use — the response carries `int(pred_class)`. -/
def predict_loan_status (model : Model) (feature_cols : List String)
    (application : LoanApplication) : Except String PredictResponse := do
  let df := toDF application
  let df_clean ← clean_raw_df df
  let X_new := df_clean.dropCols ["Loan_ID", "Loan_Status"]
  let pred_class := model.predictClass X_new
  let pred_prob := model.predictProba X_new
  let prediction : ℤ := if pred_prob ≥ 1 / 2 then 1 else 0
  return { prediction := pred_class, probability := pred_prob }

/-- Modelled from the spec (§4.2 Schema Reconciler), which has no
counterpart in the source: `align(batch, canonical)` inserts every
canonical column absent from the batch with value 0, drops every column
not in the canonical list, and reorders to the canonical order. -/
def align (df : DF) (canonical : List String) : DF :=
  ⟨canonical.map fun n =>
    (n, if df.hasCol n then df.get n else List.replicate df.nrows (.num 0))⟩

/-- Modelled from the spec (§4.3 pipeline): the endpoint as the spec
describes it, with the Schema Reconciler applied against the persisted
canonical column list before invoking the model. -/
def predict_with_align (model : Model) (feature_cols : List String)
    (application : LoanApplication) : Except String PredictResponse := do
  let df := toDF application
  let df_clean ← clean_raw_df df
  let X_new := align (df_clean.dropCols ["Loan_ID", "Loan_Status"]) feature_cols
  let pred_class := model.predictClass X_new
  let pred_prob := model.predictProba X_new
  return { prediction := pred_class, probability := pred_prob }

/-- The end-to-end example record of spec §8. -/
def exampleApplication : LoanApplication :=
  { Loan_ID := "LP001"
    Gender := "Male"
    Married := "Yes"
    Dependents := some "3+"
    Education := "Graduate"
    Self_Employed := "No"
    ApplicantIncome := 5000
    CoapplicantIncome := 0
    LoanAmount := some 128
    Loan_Amount_Term := some 360
    Credit_History := some 1
    Property_Area := "Urban" }

/-! ## Small reduction lemmas for the `Except` pipeline -/

/-- Bind on a success reduces. -/
theorem exceptBind_ok {α β : Type} (a : α) (f : α → Except String β) :
    (Except.ok a >>= f : Except String β) = f a := rfl

/-- Bind on an error short-circuits. -/
theorem exceptBind_err {α β : Type} (e : String) (f : α → Except String β) :
    (Except.error e >>= f : Except String β) = .error e := rfl

/-- Pure is `.ok`. -/
theorem exceptPure {α : Type} (a : α) :
    (pure a : Except String α) = .ok a := rfl

-- end-to-end sanity check of the Transformer on the spec §8 example record
example :
    clean_raw_df (toDF exampleApplication) =
      .ok ⟨[("Loan_ID", [.str "LP001"]),
            ("Gender", [.num 1]),
            ("Married", [.num 1]),
            ("Dependents", [.num 3]),
            ("Education", [.num 1]),
            ("Self_Employed", [.num 0]),
            ("ApplicantIncome", [.num 5000]),
            ("CoapplicantIncome", [.num 0]),
            ("LoanAmount", [.num 128]),
            ("Loan_Amount_Term", [.num 360]),
            ("Credit_History", [.num 1]),
            ("TotalIncome", [.num 5000]),
            ("Income_to_Loan_Ratio", [.num (5000 / 128)]),
            ("Applicant_to_Coapp_Ratio", [.num 5000]),
            ("Property_Rural", [.num 0]),
            ("Property_Semiurban", [.num 0]),
            ("Property_Urban", [.num 1])]⟩ := by
  decide

/-! ## The training orchestrator (src/train_model.py) -/

/-- Whether a column has pandas dtype `object` — modelled as: it holds a
string (the dataset's object columns are string columns). -/
def colIsObject (c : Col) : Bool :=
  c.any fun v => match v with | .str _ => true | _ => false

/-- Insert into a sorted duplicate-free list of strings. -/
def insertSortedStr (s : String) : List String → List String
  | [] => [s]
  | t :: rest =>
    if charListLtb s.toList t.toList then s :: t :: rest
    else if s = t then t :: rest
    else t :: insertSortedStr s rest

/-- The distinct string categories of a column, sorted ascending
(`pd.get_dummies` orders dummy columns by sorted category). -/
def strCats (c : Col) : List String :=
  c.foldl (fun acc v => match v with | .str s => insertSortedStr s acc | _ => acc) []

/-- `pd.get_dummies` on one column: drop it, append one 0/1 indicator
column per category, named `col_category` (uint8-era dummies are
numeric). -/
def dummifyCol (df : DF) (n : String) : DF :=
  let c := df.get n
  ⟨(df.dropCols [n]).cols ++ (strCats c).map fun s =>
    (n ++ "_" ++ s, c.map fun v => if v = Val.str s then Val.num 1 else Val.num 0)⟩

/-- `pd.get_dummies(X, columns=ns, drop_first=False)` (train_model.py line
63). -/
def getDummies (df : DF) (ns : List String) : DF := ns.foldl dummifyCol df

/-- `astype(int)` on a column: raises on nulls, truncates otherwise
(train_model.py line 53). -/
def astypeIntCol (c : Col) : Except String Col :=
  if c.any isNullV then
    .error "ValueError: cannot convert float NaN to integer (Loan_Status astype)"
  else .ok (c.map astypeIntV)

/-- Lines 50-53: re-map Loan_Status when it still looks textual
(`dtype == object` or some value is 'Y'/'N'), else `astype(int)`. -/
def loanStatusToY (ls : Col) : Except String Col :=
  if colIsObject ls ||
      (Col.nonNulls ls).any (fun v => v = Val.str "Y" || v = Val.str "N") then
    .ok (ls.map fun v =>
      if v = Val.str "Y" then Val.num 1
      else if v = Val.str "N" then Val.num 0
      else Val.null)
  else astypeIntCol ls

/-- The environment `train_and_save` runs in: whether the CSV path exists,
what `pd.read_csv` yields, and the opaque classifier-fitting collaborator
(`GridSearchCV.fit` + `roc_auc_score`), which only contributes the
reported metric. -/
structure TrainEnv where
  csvExists : Bool
  rawDf : DF
  fitAuc : DF → Col → ℚ

/-- Successful training outcome: the captured canonical feature-column
list and the validation AUC. -/
structure TrainOk where
  featureCols : List String
  auc : ℚ
  deriving DecidableEq, Repr

/-- `train_and_save` (train_model.py lines 30-116).  The result is paired
with the list of artifact paths written by step 10 (`joblib.dump` of the
model, then of the feature list); every error path writes nothing, since
step 10 is the only persistence point. -/
def train_and_save (env : TrainEnv)
    (raw_csv_path out_model_path out_features_path : String) :
    Except String TrainOk × List String :=
  if !env.csvExists then
    (.error ("FileNotFoundError: Training CSV not found: " ++ raw_csv_path), [])
  else
    match clean_raw_df env.rawDf with
    | .error e => (.error e, [])
    | .ok df =>
      if !df.hasCol "Loan_Status" then
        (.error "ValueError: 'Loan_Status' not found in cleaned dataframe. Ensure target column exists in raw CSV.", [])
      else
        match loanStatusToY (df.get "Loan_Status") with
        | .error e => (.error e, [])
        | .ok y =>
          let X := df.dropCols ["Loan_ID", "Loan_Status"]
          let objCols := (X.cols.filter fun p => colIsObject p.2).map (·.1)
          let X2 := if objCols.isEmpty then X else getDummies X objCols
          if !((X2.cols.filter fun p => colIsObject p.2).map (·.1)).isEmpty then
            (.error "RuntimeError: Non-numeric columns still present after get_dummies", [])
          else
            let feature_cols := X2.names
            let auc := env.fitAuc X2 y
            (.ok ⟨feature_cols, auc⟩, [out_model_path, out_features_path])

/-! ## Heap-passing rendition of the Transformer (the mutation aspect)

`clean_raw_df` receives a reference to the caller's DataFrame.  Line 15
(`df = df.copy()`) allocates a fresh object and rebinds the local name;
every following statement mutates that fresh object in place.  To make
"never mutates its input" statable, the heap of DataFrame objects is
passed explicitly: an address is an index, the input lives at `i`, the
copy is allocated at the fresh address `h.length`. -/

/-- A heap of DataFrame objects. -/
abbrev Heap := List DF

/-- Read the object at an address. -/
def heapGet (h : Heap) (i : ℕ) : DF := (h.getD i ⟨[]⟩)

/-- In-place mutation of the object at an address. -/
def modifyAt (f : DF → DF) : ℕ → Heap → Heap
  | _, [] => []
  | 0, d :: rest => f d :: rest
  | i + 1, d :: rest => d :: modifyAt f i rest

/-- In-place mutation that can raise. -/
def modifyAtE (f : DF → Except String DF) : ℕ → Heap → Except String Heap
  | _, [] => .ok []
  | 0, d :: rest => do
    let d2 ← f d
    return d2 :: rest
  | i + 1, d :: rest => do
    let r ← modifyAtE f i rest
    return d :: r

/-- `clean_raw_df` as the Python runtime executes it, statement by
statement on the heap: copy the input to a fresh address `j`, mutate the
object at `j` through the same per-statement functions `clean_raw_df`
composes, and return the heap with the result address. -/
def clean_raw_df_heap (h : Heap) (i : ℕ) : Except String (Heap × ℕ) := do
  let j := h.length
  let h0 := h ++ [heapGet h i]
  let h1 := modifyAt imputeLoanAmount j h0
  let h2 := modifyAt imputeApplicantIncome j h1
  let h3 := modifyAt imputeCoapplicantIncome j h2
  let h4 ← modifyAtE imputeLoanAmountTerm j h3
  let h5 := modifyAt imputeCreditHistory j h4
  let h6 := modifyAt imputeSelfEmployed j h5
  let h7 ← modifyAtE imputeGender j h6
  let h8 ← modifyAtE imputeMarried j h7
  let h9 ← modifyAtE imputeDependentsNa j h8
  let h10 ← modifyAtE cleanupDependents j h9
  let h11 := modifyAt addTotalIncome j h10
  let h12 := modifyAt loanRatioStep j h11
  let h13 := modifyAt coappRatioStep j h12
  let h14 ← modifyAtE capApplicantIncome j h13
  let h15 := modifyAt capLoanAmount j h14
  let h16 := modifyAt encodeGender j h15
  let h17 := modifyAt encodeMarried j h16
  let h18 := modifyAt encodeEducation j h17
  let h19 := modifyAt encodeSelfEmployed j h18
  let h20 := modifyAt propertyStep j h19
  let h21 := modifyAt mapLoanStatus j h20
  return (h21, j)

/-! ## Toolbox: association-list level lemmas -/

theorem lookupCol_replace_self (n : String) (c : Col) (l : List (String × Col)) :
    lookupCol n (replaceColList n c l) =
      match lookupCol n l with
      | some _ => some c
      | none => none := by
  induction l with
  | nil => simp [lookupCol, replaceColList]
  | cons p rest ih =>
    obtain ⟨m, d⟩ := p
    by_cases h : m = n
    · simp [lookupCol, replaceColList, h]
    · simp [lookupCol, replaceColList, h, ih]

theorem lookupCol_replace_ne (n m : String) (c : Col) (l : List (String × Col))
    (h : n ≠ m) :
    lookupCol n (replaceColList m c l) = lookupCol n l := by
  induction l with
  | nil => simp [lookupCol, replaceColList]
  | cons p rest ih =>
    obtain ⟨k, d⟩ := p
    by_cases hp : k = m
    · simp [lookupCol, replaceColList, hp, Ne.symm h, ih]
    · by_cases hn : k = n
      · simp [lookupCol, replaceColList, hp, hn, h]
      · simp [lookupCol, replaceColList, hp, hn, ih]

theorem lookupCol_append (n : String) (l1 l2 : List (String × Col)) :
    lookupCol n (l1 ++ l2) =
      match lookupCol n l1 with
      | some c => some c
      | none => lookupCol n l2 := by
  induction l1 with
  | nil => simp [lookupCol]
  | cons p rest ih =>
    obtain ⟨m, d⟩ := p
    by_cases h : m = n
    · simp [lookupCol, h]
    · simp [lookupCol, h, ih]

theorem lookupCol_filter_not_mem (n : String) (ns : List String)
    (l : List (String × Col)) (h : memStr n ns = false) :
    lookupCol n (l.filter fun p => !(memStr p.1 ns)) = lookupCol n l := by
  induction l with
  | nil => simp [lookupCol]
  | cons p rest ih =>
    obtain ⟨m, d⟩ := p
    by_cases hp : m = n
    · subst hp
      simp [List.filter, lookupCol, h]
    · cases hm : memStr m ns with
      | true => simp [List.filter, hm, lookupCol, hp, ih]
      | false => simp [List.filter, hm, lookupCol, hp, ih]

theorem lookupCol_filter_mem (n : String) (ns : List String)
    (l : List (String × Col)) (h : memStr n ns = true) :
    lookupCol n (l.filter fun p => !(memStr p.1 ns)) = none := by
  induction l with
  | nil => simp [lookupCol]
  | cons p rest ih =>
    obtain ⟨m, d⟩ := p
    by_cases hp : m = n
    · subst hp
      simp [List.filter, lookupCol, h, ih]
    · cases hm : memStr m ns with
      | true => simp [List.filter, hm, lookupCol, hp, ih]
      | false => simp [List.filter, hm, lookupCol, hp, ih]

/-! ## Toolbox: DF operation lemmas -/

theorem DF.get_set_self (df : DF) (n : String) (c : Col) :
    (df.set n c).get n = c := by
  unfold DF.set DF.get DF.hasCol
  cases h : lookupCol n df.cols with
  | some d => simp [h, lookupCol_replace_self, DF.get]
  | none => simp [h, lookupCol_append, DF.get, lookupCol]

theorem DF.get_set_ne (df : DF) (n m : String) (c : Col) (h : n ≠ m) :
    (df.set m c).get n = df.get n := by
  unfold DF.set DF.get DF.hasCol
  cases hm : lookupCol m df.cols with
  | some d =>
    simp [hm, lookupCol_replace_ne _ _ _ _ h]
  | none =>
    simp [hm, lookupCol_append, lookupCol, h]
    cases hn : lookupCol n df.cols with
    | some d => simp [hn]
    | none => simp [hn, lookupCol, Ne.symm h]

theorem DF.hasCol_set_self (df : DF) (n : String) (c : Col) :
    (df.set n c).hasCol n = true := by
  unfold DF.set DF.hasCol
  cases h : lookupCol n df.cols with
  | some d => simp [h, lookupCol_replace_self]
  | none => simp [h, lookupCol_append, lookupCol]

theorem DF.hasCol_set_ne (df : DF) (n m : String) (c : Col) (h : n ≠ m) :
    (df.set m c).hasCol n = df.hasCol n := by
  unfold DF.set DF.hasCol
  cases hm : lookupCol m df.cols with
  | some d => simp [hm, lookupCol_replace_ne _ _ _ _ h]
  | none =>
    simp [hm, lookupCol_append]
    cases hn : lookupCol n df.cols with
    | some d => simp [hn]
    | none => simp [hn, lookupCol, Ne.symm h]

theorem DF.get_dropCols_not_mem (df : DF) (n : String) (ns : List String)
    (h : memStr n ns = false) :
    (df.dropCols ns).get n = df.get n := by
  unfold DF.dropCols DF.get
  simp [lookupCol_filter_not_mem _ _ _ h]

theorem DF.hasCol_dropCols_not_mem (df : DF) (n : String) (ns : List String)
    (h : memStr n ns = false) :
    (df.dropCols ns).hasCol n = df.hasCol n := by
  unfold DF.dropCols DF.hasCol
  simp [lookupCol_filter_not_mem _ _ _ h]

theorem DF.hasCol_dropCols_mem (df : DF) (n : String) (ns : List String)
    (h : memStr n ns = true) :
    (df.dropCols ns).hasCol n = false := by
  unfold DF.dropCols DF.hasCol
  simp [lookupCol_filter_mem _ _ _ h]

/-! ## Toolbox: which columns each pipeline step leaves untouched -/

theorem get_imputeLoanAmount (df : DF) (n : String) (h : n ≠ "LoanAmount") :
    (imputeLoanAmount df).get n = df.get n := by
  unfold imputeLoanAmount
  split
  · exact DF.get_set_ne _ _ _ _ h
  · rfl

theorem get_imputeApplicantIncome (df : DF) (n : String) (h : n ≠ "ApplicantIncome") :
    (imputeApplicantIncome df).get n = df.get n := by
  unfold imputeApplicantIncome
  split
  · exact DF.get_set_ne _ _ _ _ h
  · rfl

theorem get_imputeCoapplicantIncome (df : DF) (n : String) (h : n ≠ "CoapplicantIncome") :
    (imputeCoapplicantIncome df).get n = df.get n := by
  unfold imputeCoapplicantIncome
  split
  · exact DF.get_set_ne _ _ _ _ h
  · rfl

theorem get_imputeCreditHistory (df : DF) (n : String) (h : n ≠ "Credit_History") :
    (imputeCreditHistory df).get n = df.get n := by
  unfold imputeCreditHistory
  split
  · split <;> exact DF.get_set_ne _ _ _ _ h
  · rfl

theorem get_imputeSelfEmployed (df : DF) (n : String) (h : n ≠ "Self_Employed") :
    (imputeSelfEmployed df).get n = df.get n := by
  unfold imputeSelfEmployed
  split
  · exact DF.get_set_ne _ _ _ _ h
  · rfl

theorem get_addTotalIncome (df : DF) (n : String) (h : n ≠ "TotalIncome") :
    (addTotalIncome df).get n = df.get n := by
  unfold addTotalIncome
  split
  · exact DF.get_set_ne _ _ _ _ h
  · exact DF.get_set_ne _ _ _ _ h

theorem get_loanRatioStep (df : DF) (n : String) (h1 : n ≠ "LoanAmount")
    (h2 : n ≠ "Income_to_Loan_Ratio") :
    (loanRatioStep df).get n = df.get n := by
  unfold loanRatioStep
  split
  · rw [DF.get_set_ne _ _ _ _ h2, DF.get_set_ne _ _ _ _ h1]
  · exact DF.get_set_ne _ _ _ _ h2

theorem get_coappRatioStep (df : DF) (n : String) (h : n ≠ "Applicant_to_Coapp_Ratio") :
    (coappRatioStep df).get n = df.get n := by
  unfold coappRatioStep
  split
  · exact DF.get_set_ne _ _ _ _ h
  · rfl

theorem get_capLoanAmount (df : DF) (n : String) (h : n ≠ "LoanAmount") :
    (capLoanAmount df).get n = df.get n := by
  unfold capLoanAmount
  split
  · split
    · exact DF.get_set_ne _ _ _ _ h
    · rfl
  · rfl

theorem get_encodeGender (df : DF) (n : String) (h : n ≠ "Gender") :
    (encodeGender df).get n = df.get n := by
  unfold encodeGender
  split
  · exact DF.get_set_ne _ _ _ _ h
  · rfl

theorem get_encodeMarried (df : DF) (n : String) (h : n ≠ "Married") :
    (encodeMarried df).get n = df.get n := by
  unfold encodeMarried
  split
  · exact DF.get_set_ne _ _ _ _ h
  · rfl

theorem get_encodeEducation (df : DF) (n : String) (h : n ≠ "Education") :
    (encodeEducation df).get n = df.get n := by
  unfold encodeEducation
  split
  · exact DF.get_set_ne _ _ _ _ h
  · rfl

theorem get_encodeSelfEmployed (df : DF) (n : String) (h : n ≠ "Self_Employed") :
    (encodeSelfEmployed df).get n = df.get n := by
  unfold encodeSelfEmployed
  split
  · exact DF.get_set_ne _ _ _ _ h
  · rfl

theorem get_propertyStep (df : DF) (n : String) (h1 : n ≠ "Property_Area")
    (h2 : n ≠ "Property_Rural") (h3 : n ≠ "Property_Semiurban")
    (h4 : n ≠ "Property_Urban") :
    (propertyStep df).get n = df.get n := by
  unfold propertyStep
  split
  · show DF.get ⟨_ ++ _⟩ n = _
    unfold DF.get DF.dropCols
    rw [lookupCol_append]
    rw [lookupCol_filter_not_mem n ["Property_Area"] df.cols (by simp [memStr, Ne.symm h1])]
    cases hl : lookupCol n df.cols with
    | some c => simp
    | none => simp [lookupCol, Ne.symm h2, Ne.symm h3, Ne.symm h4]
  · rfl

theorem get_mapLoanStatus (df : DF) (n : String) (h : n ≠ "Loan_Status") :
    (mapLoanStatus df).get n = df.get n := by
  unfold mapLoanStatus
  split
  · exact DF.get_set_ne _ _ _ _ h
  · rfl

theorem get_imputeLoanAmountTerm (df df2 : DF) (n : String)
    (h : imputeLoanAmountTerm df = .ok df2) (hn : n ≠ "Loan_Amount_Term") :
    df2.get n = df.get n := by
  unfold imputeLoanAmountTerm at h
  split at h
  · split at h
    · simp only [Except.ok.injEq] at h
      subst h
      exact DF.get_set_ne _ _ _ _ hn
    · simp at h
  · simp only [Except.ok.injEq] at h
    subst h
    rfl

theorem get_imputeGender (df df2 : DF) (n : String)
    (h : imputeGender df = .ok df2) (hn : n ≠ "Gender") :
    df2.get n = df.get n := by
  unfold imputeGender at h
  split at h
  · split at h
    · simp only [Except.ok.injEq] at h
      subst h
      exact DF.get_set_ne _ _ _ _ hn
    · simp at h
  · simp only [Except.ok.injEq] at h
    subst h
    rfl

theorem get_imputeMarried (df df2 : DF) (n : String)
    (h : imputeMarried df = .ok df2) (hn : n ≠ "Married") :
    df2.get n = df.get n := by
  unfold imputeMarried at h
  split at h
  · split at h
    · simp only [Except.ok.injEq] at h
      subst h
      exact DF.get_set_ne _ _ _ _ hn
    · simp at h
  · simp only [Except.ok.injEq] at h
    subst h
    rfl

theorem get_imputeDependentsNa (df df2 : DF) (n : String)
    (h : imputeDependentsNa df = .ok df2) (hn : n ≠ "Dependents") :
    df2.get n = df.get n := by
  unfold imputeDependentsNa at h
  split at h
  · split at h
    · simp only [Except.ok.injEq] at h
      subst h
      exact DF.get_set_ne _ _ _ _ hn
    · simp at h
  · simp only [Except.ok.injEq] at h
    subst h
    rfl

theorem get_cleanupDependents (df df2 : DF) (n : String)
    (h : cleanupDependents df = .ok df2) (hn : n ≠ "Dependents") :
    df2.get n = df.get n := by
  simp only [cleanupDependents] at h
  split at h
  · split at h
    · split at h
      · simp only [Except.ok.injEq] at h
        subst h
        exact DF.get_set_ne _ _ _ _ hn
      · simp at h
    · simp only [Except.ok.injEq] at h
      subst h
      exact DF.get_set_ne _ _ _ _ hn
  · simp only [Except.ok.injEq] at h
    subst h
    rfl

theorem get_capApplicantIncome (df df2 : DF) (n : String)
    (h : capApplicantIncome df = .ok df2) (hn : n ≠ "ApplicantIncome") :
    df2.get n = df.get n := by
  unfold capApplicantIncome at h
  split at h
  · split at h
    · simp only [Except.ok.injEq] at h
      subst h
      exact DF.get_set_ne _ _ _ _ hn
    · simp at h
  · simp only [Except.ok.injEq] at h
    subst h
    rfl

/-! ## Toolbox: column-presence preservation -/

theorem hasCol_imputeLoanAmount (df : DF) (n : String) (h1 : n ≠ "LoanAmount") :
    (imputeLoanAmount df).hasCol n = df.hasCol n := by
  unfold imputeLoanAmount
  split
  · exact DF.hasCol_set_ne _ _ _ _ h1
  · rfl

theorem hasCol_imputeApplicantIncome (df : DF) (n : String) (h1 : n ≠ "ApplicantIncome") :
    (imputeApplicantIncome df).hasCol n = df.hasCol n := by
  unfold imputeApplicantIncome
  split
  · exact DF.hasCol_set_ne _ _ _ _ h1
  · rfl

theorem hasCol_imputeCoapplicantIncome (df : DF) (n : String) (h1 : n ≠ "CoapplicantIncome") :
    (imputeCoapplicantIncome df).hasCol n = df.hasCol n := by
  unfold imputeCoapplicantIncome
  split
  · exact DF.hasCol_set_ne _ _ _ _ h1
  · rfl

theorem hasCol_imputeCreditHistory (df : DF) (n : String) (h1 : n ≠ "Credit_History") :
    (imputeCreditHistory df).hasCol n = df.hasCol n := by
  unfold imputeCreditHistory
  split
  · split <;> exact DF.hasCol_set_ne _ _ _ _ h1
  · rfl

theorem hasCol_imputeSelfEmployed (df : DF) (n : String) (h1 : n ≠ "Self_Employed") :
    (imputeSelfEmployed df).hasCol n = df.hasCol n := by
  unfold imputeSelfEmployed
  split
  · exact DF.hasCol_set_ne _ _ _ _ h1
  · rfl

theorem hasCol_addTotalIncome (df : DF) (n : String) (h1 : n ≠ "TotalIncome") :
    (addTotalIncome df).hasCol n = df.hasCol n := by
  unfold addTotalIncome
  split
  · exact DF.hasCol_set_ne _ _ _ _ h1
  · exact DF.hasCol_set_ne _ _ _ _ h1

theorem hasCol_coappRatioStep (df : DF) (n : String) (h1 : n ≠ "Applicant_to_Coapp_Ratio") :
    (coappRatioStep df).hasCol n = df.hasCol n := by
  unfold coappRatioStep
  split
  · exact DF.hasCol_set_ne _ _ _ _ h1
  · rfl

theorem hasCol_capLoanAmount (df : DF) (n : String) (h1 : n ≠ "LoanAmount") :
    (capLoanAmount df).hasCol n = df.hasCol n := by
  unfold capLoanAmount
  split
  · split
    · exact DF.hasCol_set_ne _ _ _ _ h1
    · rfl
  · rfl

theorem hasCol_encodeGender (df : DF) (n : String) (h1 : n ≠ "Gender") :
    (encodeGender df).hasCol n = df.hasCol n := by
  unfold encodeGender
  split
  · exact DF.hasCol_set_ne _ _ _ _ h1
  · rfl

theorem hasCol_encodeMarried (df : DF) (n : String) (h1 : n ≠ "Married") :
    (encodeMarried df).hasCol n = df.hasCol n := by
  unfold encodeMarried
  split
  · exact DF.hasCol_set_ne _ _ _ _ h1
  · rfl

theorem hasCol_encodeEducation (df : DF) (n : String) (h1 : n ≠ "Education") :
    (encodeEducation df).hasCol n = df.hasCol n := by
  unfold encodeEducation
  split
  · exact DF.hasCol_set_ne _ _ _ _ h1
  · rfl

theorem hasCol_encodeSelfEmployed (df : DF) (n : String) (h1 : n ≠ "Self_Employed") :
    (encodeSelfEmployed df).hasCol n = df.hasCol n := by
  unfold encodeSelfEmployed
  split
  · exact DF.hasCol_set_ne _ _ _ _ h1
  · rfl

theorem hasCol_mapLoanStatus (df : DF) (n : String) (h1 : n ≠ "Loan_Status") :
    (mapLoanStatus df).hasCol n = df.hasCol n := by
  unfold mapLoanStatus
  split
  · exact DF.hasCol_set_ne _ _ _ _ h1
  · rfl

theorem hasCol_loanRatioStep (df : DF) (n : String) (h1 : n ≠ "LoanAmount")
    (h2 : n ≠ "Income_to_Loan_Ratio") :
    (loanRatioStep df).hasCol n = df.hasCol n := by
  unfold loanRatioStep
  split
  · rw [DF.hasCol_set_ne _ _ _ _ h2, DF.hasCol_set_ne _ _ _ _ h1]
  · exact DF.hasCol_set_ne _ _ _ _ h2

theorem hasCol_imputeLoanAmountTerm (df df2 : DF) (n : String)
    (h : imputeLoanAmountTerm df = .ok df2) (hn : n ≠ "Loan_Amount_Term") :
    df2.hasCol n = df.hasCol n := by
  unfold imputeLoanAmountTerm at h
  split at h
  · split at h
    · simp only [Except.ok.injEq] at h
      subst h
      exact DF.hasCol_set_ne _ _ _ _ hn
    · simp at h
  · simp only [Except.ok.injEq] at h
    subst h
    rfl

theorem hasCol_imputeGender (df df2 : DF) (n : String)
    (h : imputeGender df = .ok df2) (hn : n ≠ "Gender") :
    df2.hasCol n = df.hasCol n := by
  unfold imputeGender at h
  split at h
  · split at h
    · simp only [Except.ok.injEq] at h
      subst h
      exact DF.hasCol_set_ne _ _ _ _ hn
    · simp at h
  · simp only [Except.ok.injEq] at h
    subst h
    rfl

theorem hasCol_imputeMarried (df df2 : DF) (n : String)
    (h : imputeMarried df = .ok df2) (hn : n ≠ "Married") :
    df2.hasCol n = df.hasCol n := by
  unfold imputeMarried at h
  split at h
  · split at h
    · simp only [Except.ok.injEq] at h
      subst h
      exact DF.hasCol_set_ne _ _ _ _ hn
    · simp at h
  · simp only [Except.ok.injEq] at h
    subst h
    rfl

theorem hasCol_imputeDependentsNa (df df2 : DF) (n : String)
    (h : imputeDependentsNa df = .ok df2) (hn : n ≠ "Dependents") :
    df2.hasCol n = df.hasCol n := by
  unfold imputeDependentsNa at h
  split at h
  · split at h
    · simp only [Except.ok.injEq] at h
      subst h
      exact DF.hasCol_set_ne _ _ _ _ hn
    · simp at h
  · simp only [Except.ok.injEq] at h
    subst h
    rfl

theorem hasCol_capApplicantIncome (df df2 : DF) (n : String)
    (h : capApplicantIncome df = .ok df2) (hn : n ≠ "ApplicantIncome") :
    df2.hasCol n = df.hasCol n := by
  unfold capApplicantIncome at h
  split at h
  · split at h
    · simp only [Except.ok.injEq] at h
      subst h
      exact DF.hasCol_set_ne _ _ _ _ hn
    · simp at h
  · simp only [Except.ok.injEq] at h
    subst h
    rfl

theorem hasCol_cleanupDependents (df df2 : DF) (n : String)
    (h : cleanupDependents df = .ok df2) (hn : n ≠ "Dependents") :
    df2.hasCol n = df.hasCol n := by
  simp only [cleanupDependents] at h
  split at h
  · split at h
    · split at h
      · simp only [Except.ok.injEq] at h
        subst h
        exact DF.hasCol_set_ne _ _ _ _ hn
      · simp at h
    · simp only [Except.ok.injEq] at h
      subst h
      exact DF.hasCol_set_ne _ _ _ _ hn
  · simp only [Except.ok.injEq] at h
    subst h
    rfl

theorem hasCol_propertyStep (df : DF) (n : String) (h1 : n ≠ "Property_Area")
    (h2 : n ≠ "Property_Rural") (h3 : n ≠ "Property_Semiurban")
    (h4 : n ≠ "Property_Urban") :
    (propertyStep df).hasCol n = df.hasCol n := by
  unfold propertyStep
  split
  · show DF.hasCol ⟨_ ++ _⟩ n = _
    unfold DF.hasCol DF.dropCols
    rw [lookupCol_append]
    rw [lookupCol_filter_not_mem n ["Property_Area"] df.cols (by simp [memStr, Ne.symm h1])]
    cases hl : lookupCol n df.cols with
    | some c => simp
    | none => simp [lookupCol, Ne.symm h2, Ne.symm h3, Ne.symm h4]
  · rfl

/-! ## Toolbox: mode, median, and column-content lemmas -/

theorem modeStep_some_cases (cand : List Val) (w v : Val) :
    modeStep cand (some w) v = some v ∨ modeStep cand (some w) v = some w := by
  unfold modeStep
  by_cases h1 : countV w cand < countV v cand
  · simp [h1]
  · by_cases h2 : countV v cand = countV w cand
    · by_cases h3 : valLtb v w
      · simp [h1, h2, h3]
      · simp [h1, h2, h3]
    · simp [h1, h2]

theorem modeStep_some (cand : List Val) (w v : Val) :
    ∃ u, modeStep cand (some w) v = some u := by
  rcases modeStep_some_cases cand w v with h | h
  · exact ⟨v, h⟩
  · exact ⟨w, h⟩

theorem foldl_modeStep_some (cand : List Val) (l : List Val) :
    ∀ w : Val, ∃ u, l.foldl (modeStep cand) (some w) = some u := by
  induction l with
  | nil => exact fun w => ⟨w, rfl⟩
  | cons v rest ih =>
    intro w
    obtain ⟨u, hu⟩ := modeStep_some cand w v
    simpa [List.foldl, hu] using ih u

theorem modePick_isSome (cand : List Val) (h : cand ≠ []) :
    ∃ u, modePick cand = some u := by
  unfold modePick
  cases cand with
  | nil => exact absurd rfl h
  | cons v rest =>
    have h0 : modeStep (v :: rest) none v = some v := rfl
    simpa [List.foldl, h0] using foldl_modeStep_some (v :: rest) rest v

theorem modeStep_mem (cand : List Val) (acc : Option Val) (v u : Val)
    (hacc : ∀ w, acc = some w → w ∈ cand) (hv : v ∈ cand)
    (h : modeStep cand acc v = some u) : u ∈ cand := by
  cases acc with
  | none =>
    have : some v = some u := h
    cases this
    exact hv
  | some w =>
    rcases modeStep_some_cases cand w v with hc | hc
    · rw [hc] at h
      cases h
      exact hv
    · rw [hc] at h
      cases h
      exact hacc u rfl

theorem foldl_modeStep_mem (cand : List Val) (l : List Val) :
    ∀ acc : Option Val, (∀ w, acc = some w → w ∈ cand) → (∀ v ∈ l, v ∈ cand) →
      ∀ u, l.foldl (modeStep cand) acc = some u → u ∈ cand := by
  induction l with
  | nil =>
    intro acc hacc _ u h
    exact hacc u h
  | cons v rest ih =>
    intro acc hacc hl u h
    simp only [List.foldl] at h
    cases hstep : modeStep cand acc v with
    | none =>
      rw [hstep] at h
      exact ih none (by simp) (fun x hx => hl x (List.mem_cons_of_mem _ hx)) u h
    | some w =>
      rw [hstep] at h
      have hw : w ∈ cand :=
        modeStep_mem cand acc v w hacc (hl v (List.mem_cons_self _ _)) hstep
      exact ih (some w) (fun x hx => by cases hx; exact hw)
        (fun x hx => hl x (List.mem_cons_of_mem _ hx)) u h

theorem modePick_mem (cand : List Val) (u : Val) (h : modePick cand = some u) :
    u ∈ cand := by
  exact foldl_modeStep_mem cand cand none (by simp) (fun v hv => hv) u h

theorem mode_mem_nonNulls (c : Col) (m : Val) (h : Col.mode c = some m) :
    m ∈ Col.nonNulls c :=
  modePick_mem _ _ h

theorem nonNulls_not_null (c : Col) (v : Val) (h : v ∈ Col.nonNulls c) :
    isNullV v = false := by
  unfold Col.nonNulls at h
  have := List.of_mem_filter h
  simpa using this

theorem nonNulls_subset (c : Col) (v : Val) (h : v ∈ Col.nonNulls c) : v ∈ c :=
  List.mem_of_mem_filter h

theorem mode_isSome_of_mem (c : Col) (v : Val) (hv : v ∈ c)
    (hnn : isNullV v = false) : ∃ m, Col.mode c = some m := by
  apply modePick_isSome
  intro hnil
  have : v ∈ Col.nonNulls c := by
    unfold Col.nonNulls
    exact List.mem_filter.2 ⟨hv, by simp [hnn]⟩
  rw [hnil] at this
  exact absurd this (List.not_mem_nil v)

theorem medianQ_isSome (l : List ℚ) (h : l ≠ []) : ∃ q, medianQ l = some q := by
  have hlen : (sortQ l).length = l.length := by
    unfold sortQ
    exact (List.perm_insertionSort _ l).length_eq
  simp only [medianQ]
  cases hs : sortQ l with
  | nil =>
    rw [hs] at hlen
    exact absurd (List.eq_nil_of_length_eq_zero hlen.symm) h
  | cons a rest =>
    simp only [List.length_cons]
    by_cases hpar : (rest.length + 1) % 2 = 1
    · rw [if_pos hpar]
      exact ⟨_, rfl⟩
    · rw [if_neg hpar]
      exact ⟨_, rfl⟩

theorem nums_ne_nil_of_mem (c : Col) (q : ℚ) (h : Val.num q ∈ c) :
    Col.nums c ≠ [] := by
  intro hnil
  have : q ∈ Col.nums c := by
    unfold Col.nums
    exact List.mem_filterMap.2 ⟨Val.num q, h, rfl⟩
  rw [hnil] at this
  exact absurd this (List.not_mem_nil q)

theorem median_num_of_mem (c : Col) (q : ℚ) (h : Val.num q ∈ c) :
    ∃ p, Col.median c = .num p := by
  unfold Col.median
  obtain ⟨p, hp⟩ := medianQ_isSome (Col.nums c) (nums_ne_nil_of_mem c q h)
  exact ⟨p, by rw [hp]⟩

/-- Either numeric or null (the cell shapes a well-typed numeric column
can contain). -/
def numOrNull (v : Val) : Bool := isNumV v || isNullV v

theorem fillnaV_numeric (m : Val) (c : Col) (hm : isNumV m = true)
    (hc : ∀ w ∈ c, numOrNull w = true) :
    ∀ v ∈ fillnaV m c, isNumV v = true := by
  intro v hv
  unfold fillnaV at hv
  obtain ⟨w, hw, hmap⟩ := List.mem_map.1 hv
  cases w with
  | num q => cases hmap; simp [isNumV]
  | str s =>
    have := hc _ hw
    simp [numOrNull, isNumV, isNullV] at this
  | null => cases hmap; exact hm

theorem mem_zipWith {α β γ : Type} (f : α → β → γ) (l1 : List α) (l2 : List β) :
    ∀ v ∈ List.zipWith f l1 l2, ∃ a ∈ l1, ∃ b ∈ l2, v = f a b := by
  induction l1 generalizing l2 with
  | nil => simp
  | cons a as ih =>
    cases l2 with
    | nil => simp
    | cons b bs =>
      intro v hv
      simp only [List.zipWith] at hv
      rcases List.mem_cons.1 hv with hv1 | hv1
      · exact ⟨a, List.mem_cons_self _ _, b, List.mem_cons_self _ _, hv1⟩
      · obtain ⟨x, hx, y, hy, hxy⟩ := ih bs v hv1
        exact ⟨x, List.mem_cons_of_mem _ hx, y, List.mem_cons_of_mem _ hy, hxy⟩

/-! ## Toolbox: decomposing a successful Transformer run -/

theorem clean_raw_df_parts (df out : DF) (h : clean_raw_df df = .ok out) :
    ∃ df4 df7 df8 df9 df10 df14,
      imputeLoanAmountTerm
        (imputeCoapplicantIncome (imputeApplicantIncome (imputeLoanAmount df))) = .ok df4 ∧
      imputeGender (imputeSelfEmployed (imputeCreditHistory df4)) = .ok df7 ∧
      imputeMarried df7 = .ok df8 ∧
      imputeDependentsNa df8 = .ok df9 ∧
      cleanupDependents df9 = .ok df10 ∧
      capApplicantIncome (coappRatioStep (loanRatioStep (addTotalIncome df10))) = .ok df14 ∧
      out = mapLoanStatus (propertyStep (encodeSelfEmployed (encodeEducation
        (encodeMarried (encodeGender (capLoanAmount df14)))))) := by
  simp only [clean_raw_df] at h
  cases h4 : imputeLoanAmountTerm
      (imputeCoapplicantIncome (imputeApplicantIncome (imputeLoanAmount df))) with
  | error e =>
    rw [h4] at h
    simp [exceptBind_err] at h
  | ok df4 =>
    rw [h4] at h
    simp only [exceptBind_ok] at h
    cases h7 : imputeGender (imputeSelfEmployed (imputeCreditHistory df4)) with
    | error e =>
      rw [h7] at h
      simp [exceptBind_err] at h
    | ok df7 =>
      rw [h7] at h
      simp only [exceptBind_ok] at h
      cases h8 : imputeMarried df7 with
      | error e =>
        rw [h8] at h
        simp [exceptBind_err] at h
      | ok df8 =>
        rw [h8] at h
        simp only [exceptBind_ok] at h
        cases h9 : imputeDependentsNa df8 with
        | error e =>
          rw [h9] at h
          simp [exceptBind_err] at h
        | ok df9 =>
          rw [h9] at h
          simp only [exceptBind_ok] at h
          cases h10 : cleanupDependents df9 with
          | error e =>
            rw [h10] at h
            simp [exceptBind_err] at h
          | ok df10 =>
            rw [h10] at h
            simp only [exceptBind_ok] at h
            cases h14 : capApplicantIncome
                (coappRatioStep (loanRatioStep (addTotalIncome df10))) with
            | error e =>
              rw [h14] at h
              simp [exceptBind_err] at h
            | ok df14 =>
              rw [h14] at h
              simp only [exceptBind_ok, exceptPure, Except.ok.injEq] at h
              exact ⟨df4, df7, df8, df9, df10, df14, rfl, h7, h8, h9, h10, h14, h.symm⟩

/-! ## Toolbox: what each step does to its own column -/

theorem hasCol_lookup_none (df : DF) (n : String) (h : df.hasCol n = false) :
    lookupCol n df.cols = none := by
  unfold DF.hasCol at h
  cases hl : lookupCol n df.cols with
  | some c => rw [hl] at h; simp at h
  | none => rfl

theorem imputeLoanAmountTerm_ok_self (df df2 : DF)
    (h : imputeLoanAmountTerm df = .ok df2) (hc : df.hasCol "Loan_Amount_Term" = true) :
    ∃ m, Col.mode (df.get "Loan_Amount_Term") = some m ∧
      df2.get "Loan_Amount_Term" = fillnaV m (df.get "Loan_Amount_Term") ∧
      df2.hasCol "Loan_Amount_Term" = true := by
  unfold imputeLoanAmountTerm at h
  rw [hc] at h
  simp only [if_true] at h
  cases hm : Col.mode (df.get "Loan_Amount_Term") with
  | none => rw [hm] at h; simp at h
  | some m =>
    rw [hm] at h
    simp only [Except.ok.injEq] at h
    subst h
    exact ⟨m, rfl, DF.get_set_self _ _ _, DF.hasCol_set_self _ _ _⟩

theorem imputeGender_ok_self (df df2 : DF)
    (h : imputeGender df = .ok df2) (hc : df.hasCol "Gender" = true) :
    ∃ m, Col.mode (df.get "Gender") = some m ∧
      df2.get "Gender" = fillnaV m (df.get "Gender") ∧
      df2.hasCol "Gender" = true := by
  unfold imputeGender at h
  rw [hc] at h
  simp only [if_true] at h
  cases hm : Col.mode (df.get "Gender") with
  | none => rw [hm] at h; simp at h
  | some m =>
    rw [hm] at h
    simp only [Except.ok.injEq] at h
    subst h
    exact ⟨m, rfl, DF.get_set_self _ _ _, DF.hasCol_set_self _ _ _⟩

theorem imputeMarried_ok_self (df df2 : DF)
    (h : imputeMarried df = .ok df2) (hc : df.hasCol "Married" = true) :
    ∃ m, Col.mode (df.get "Married") = some m ∧
      df2.get "Married" = fillnaV m (df.get "Married") ∧
      df2.hasCol "Married" = true := by
  unfold imputeMarried at h
  rw [hc] at h
  simp only [if_true] at h
  cases hm : Col.mode (df.get "Married") with
  | none => rw [hm] at h; simp at h
  | some m =>
    rw [hm] at h
    simp only [Except.ok.injEq] at h
    subst h
    exact ⟨m, rfl, DF.get_set_self _ _ _, DF.hasCol_set_self _ _ _⟩

theorem imputeDependentsNa_ok_self (df df2 : DF)
    (h : imputeDependentsNa df = .ok df2) (hc : df.hasCol "Dependents" = true) :
    ∃ m, Col.mode (df.get "Dependents") = some m ∧
      df2.get "Dependents" = fillnaV m (df.get "Dependents") ∧
      df2.hasCol "Dependents" = true := by
  unfold imputeDependentsNa at h
  rw [hc] at h
  simp only [if_true] at h
  cases hm : Col.mode (df.get "Dependents") with
  | none => rw [hm] at h; simp at h
  | some m =>
    rw [hm] at h
    simp only [Except.ok.injEq] at h
    subst h
    exact ⟨m, rfl, DF.get_set_self _ _ _, DF.hasCol_set_self _ _ _⟩

theorem cleanupDependents_ok_self (df df2 : DF)
    (h : cleanupDependents df = .ok df2) (hc : df.hasCol "Dependents" = true) :
    (((df.get "Dependents").map depCoerceV).any isNullV = false ∧
      df2.get "Dependents" =
        ((df.get "Dependents").map depCoerceV).map astypeIntV) ∨
    (∃ m, ((df.get "Dependents").map depCoerceV).any isNullV = true ∧
      Col.mode ((df.get "Dependents").map depCoerceV) = some m ∧
      df2.get "Dependents" =
        (fillnaV m ((df.get "Dependents").map depCoerceV)).map astypeIntV) := by
  simp only [cleanupDependents] at h
  rw [hc] at h
  simp only [if_true] at h
  cases hany : ((df.get "Dependents").map depCoerceV).any isNullV with
  | false =>
    rw [hany] at h
    simp only [Bool.false_eq_true, if_false, Except.ok.injEq] at h
    subst h
    exact Or.inl ⟨rfl, DF.get_set_self _ _ _⟩
  | true =>
    rw [hany] at h
    simp only [if_true] at h
    cases hm : Col.mode ((df.get "Dependents").map depCoerceV) with
    | none => rw [hm] at h; simp at h
    | some m =>
      rw [hm] at h
      simp only [Except.ok.injEq] at h
      subst h
      exact Or.inr ⟨m, rfl, rfl, DF.get_set_self _ _ _⟩

theorem capApplicantIncome_ok_self (df df2 : DF)
    (h : capApplicantIncome df = .ok df2) (hc : df.hasCol "ApplicantIncome" = true) :
    ∃ cap, quantileQ (99 / 100) (Col.nums (df.get "ApplicantIncome")) = some cap ∧
      df2.get "ApplicantIncome" = (df.get "ApplicantIncome").map fun v =>
        match v with
        | .num q => if cap < q then .num (qtrunc cap) else .num q
        | w => w := by
  unfold capApplicantIncome at h
  rw [hc] at h
  simp only [if_true] at h
  cases hq : quantileQ (99 / 100) (Col.nums (df.get "ApplicantIncome")) with
  | none => rw [hq] at h; simp at h
  | some cap =>
    rw [hq] at h
    simp only [Except.ok.injEq] at h
    subst h
    exact ⟨cap, rfl, DF.get_set_self _ _ _⟩

theorem get_addTotalIncome_self (df : DF) :
    (addTotalIncome df).get "TotalIncome" =
      if df.hasCol "ApplicantIncome" && df.hasCol "CoapplicantIncome" then
        List.zipWith addV (df.get "ApplicantIncome") (df.get "CoapplicantIncome")
      else List.replicate df.nrows .null := by
  unfold addTotalIncome
  split
  · exact DF.get_set_self _ _ _
  · exact DF.get_set_self _ _ _

theorem hasCol_addTotalIncome_self (df : DF) :
    (addTotalIncome df).hasCol "TotalIncome" = true := by
  unfold addTotalIncome
  split
  · exact DF.hasCol_set_self _ _ _
  · exact DF.hasCol_set_self _ _ _

theorem get_loanRatioStep_ratio (df : DF) :
    (loanRatioStep df).get "Income_to_Loan_Ratio" =
      if df.hasCol "LoanAmount" then
        List.zipWith divV (df.get "TotalIncome")
          (loanColAtDivision (df.get "LoanAmount"))
      else List.replicate df.nrows .null := by
  unfold loanRatioStep
  split
  · simp only [DF.get_set_self]
    rw [DF.get_set_ne _ _ _ _ (by decide : "TotalIncome" ≠ "LoanAmount")]
  · exact DF.get_set_self _ _ _

theorem hasCol_loanRatioStep_ratio (df : DF) :
    (loanRatioStep df).hasCol "Income_to_Loan_Ratio" = true := by
  unfold loanRatioStep
  split
  · exact DF.hasCol_set_self _ _ _
  · exact DF.hasCol_set_self _ _ _

theorem get_loanRatioStep_loan (df : DF) (hc : df.hasCol "LoanAmount" = true) :
    (loanRatioStep df).get "LoanAmount" = loanColAtDivision (df.get "LoanAmount") := by
  unfold loanRatioStep
  rw [hc]
  simp only [if_true]
  rw [DF.get_set_ne _ _ _ _ (by decide : "LoanAmount" ≠ "Income_to_Loan_Ratio")]
  exact DF.get_set_self _ _ _

theorem mapLoanStatus_absent (df : DF) (h : df.hasCol "Loan_Status" = false) :
    mapLoanStatus df = df := by
  unfold mapLoanStatus
  rw [h]
  simp

theorem numOrNull_not_null (v : Val) (h1 : numOrNull v = true)
    (h2 : isNullV v = false) : isNumV v = true := by
  cases v <;> simp_all [numOrNull, isNumV, isNullV]

theorem propertyStep_self (df : DF) (hPA : df.hasCol "Property_Area" = true)
    (hR : df.hasCol "Property_Rural" = false)
    (hS : df.hasCol "Property_Semiurban" = false)
    (hU : df.hasCol "Property_Urban" = false) :
    (propertyStep df).get "Property_Rural" =
      (df.get "Property_Area").map (indicatorV "Rural") ∧
    (propertyStep df).get "Property_Semiurban" =
      (df.get "Property_Area").map (indicatorV "Semiurban") ∧
    (propertyStep df).get "Property_Urban" =
      (df.get "Property_Area").map (indicatorV "Urban") ∧
    (propertyStep df).hasCol "Property_Area" = false ∧
    (propertyStep df).hasCol "Property_Rural" = true ∧
    (propertyStep df).hasCol "Property_Semiurban" = true ∧
    (propertyStep df).hasCol "Property_Urban" = true := by
  unfold propertyStep
  rw [hPA]
  simp only [if_true]
  have hdropR :
      lookupCol "Property_Rural" (DF.dropCols df ["Property_Area"]).cols = none := by
    unfold DF.dropCols
    rw [lookupCol_filter_not_mem _ _ _ (by decide)]
    exact hasCol_lookup_none df _ hR
  have hdropS :
      lookupCol "Property_Semiurban" (DF.dropCols df ["Property_Area"]).cols = none := by
    unfold DF.dropCols
    rw [lookupCol_filter_not_mem _ _ _ (by decide)]
    exact hasCol_lookup_none df _ hS
  have hdropU :
      lookupCol "Property_Urban" (DF.dropCols df ["Property_Area"]).cols = none := by
    unfold DF.dropCols
    rw [lookupCol_filter_not_mem _ _ _ (by decide)]
    exact hasCol_lookup_none df _ hU
  have hdropPA :
      lookupCol "Property_Area" (DF.dropCols df ["Property_Area"]).cols = none := by
    unfold DF.dropCols
    exact lookupCol_filter_mem _ _ _ (by decide)
  refine ⟨?_, ?_, ?_, ?_, ?_, ?_, ?_⟩
  · show DF.get ⟨_ ++ _⟩ _ = _
    unfold DF.get
    rw [lookupCol_append, hdropR]
    simp [lookupCol]
  · show DF.get ⟨_ ++ _⟩ _ = _
    unfold DF.get
    rw [lookupCol_append, hdropS]
    simp [lookupCol]
  · show DF.get ⟨_ ++ _⟩ _ = _
    unfold DF.get
    rw [lookupCol_append, hdropU]
    simp [lookupCol]
  · show DF.hasCol ⟨_ ++ _⟩ _ = _
    unfold DF.hasCol
    rw [lookupCol_append, hdropPA]
    simp [lookupCol]
  · show DF.hasCol ⟨_ ++ _⟩ _ = _
    unfold DF.hasCol
    rw [lookupCol_append, hdropR]
    simp [lookupCol]
  · show DF.hasCol ⟨_ ++ _⟩ _ = _
    unfold DF.hasCol
    rw [lookupCol_append, hdropS]
    simp [lookupCol]
  · show DF.hasCol ⟨_ ++ _⟩ _ = _
    unfold DF.hasCol
    rw [lookupCol_append, hdropU]
    simp [lookupCol]

theorem encodeGender_numeric (df : DF) (hc : df.hasCol "Gender" = true) :
    ∀ v ∈ (encodeGender df).get "Gender", isNumV v = true := by
  unfold encodeGender
  rw [hc]
  simp only [if_true, DF.get_set_self]
  intro v hv
  obtain ⟨w, hw, hmap⟩ := List.mem_map.1 hv
  split at hmap <;> (cases hmap; rfl)

theorem encodeMarried_numeric (df : DF) (hc : df.hasCol "Married" = true) :
    ∀ v ∈ (encodeMarried df).get "Married", isNumV v = true := by
  unfold encodeMarried
  rw [hc]
  simp only [if_true, DF.get_set_self]
  intro v hv
  obtain ⟨w, hw, hmap⟩ := List.mem_map.1 hv
  split at hmap <;> (cases hmap; rfl)

theorem encodeEducation_numeric (df : DF) (hc : df.hasCol "Education" = true) :
    ∀ v ∈ (encodeEducation df).get "Education", isNumV v = true := by
  unfold encodeEducation
  rw [hc]
  simp only [if_true, DF.get_set_self]
  intro v hv
  obtain ⟨w, hw, hmap⟩ := List.mem_map.1 hv
  split at hmap <;> (cases hmap; rfl)

theorem encodeSelfEmployed_numeric (df : DF) (hc : df.hasCol "Self_Employed" = true) :
    ∀ v ∈ (encodeSelfEmployed df).get "Self_Employed", isNumV v = true := by
  unfold encodeSelfEmployed
  rw [hc]
  simp only [if_true, DF.get_set_self]
  intro v hv
  obtain ⟨w, hw, hmap⟩ := List.mem_map.1 hv
  split at hmap <;> (cases hmap; rfl)

theorem imputeCreditHistory_numeric (df : DF) (hc : df.hasCol "Credit_History" = true)
    (hcells : ∀ w ∈ df.get "Credit_History", numOrNull w = true) :
    ∀ v ∈ (imputeCreditHistory df).get "Credit_History", isNumV v = true := by
  unfold imputeCreditHistory
  rw [hc]
  simp only [if_true]
  cases hm : Col.mode (df.get "Credit_History") with
  | some m =>
    simp only [DF.get_set_self]
    apply fillnaV_numeric
    · have hmem := mode_mem_nonNulls _ _ hm
      exact numOrNull_not_null m (hcells _ (nonNulls_subset _ _ hmem))
        (nonNulls_not_null _ _ hmem)
    · exact hcells
  | none =>
    simp only [DF.get_set_self]
    exact fillnaV_numeric _ _ rfl hcells

theorem quantileQ_isSome (p : ℚ) (l : List ℚ) (h : l ≠ []) :
    ∃ q, quantileQ p l = some q := by
  have hlen : (sortQ l).length = l.length := by
    unfold sortQ
    exact (List.perm_insertionSort _ l).length_eq
  simp only [quantileQ]
  cases hs : sortQ l with
  | nil =>
    rw [hs] at hlen
    exact absurd (List.eq_nil_of_length_eq_zero hlen.symm) h
  | cons a rest => exact ⟨_, rfl⟩

theorem depCoerceV_numOrNull (v : Val) : numOrNull (depCoerceV v) = true := by
  cases v with
  | null => rfl
  | num q => rfl
  | str s =>
    unfold depCoerceV
    by_cases h3 : s = "3+"
    · simp [h3, numOrNull, isNumV]
    · simp only [h3, if_false]
      cases hp : parseNum s <;> simp [numOrNull, isNumV, isNullV]

theorem astypeIntV_int (q : ℚ) : ∃ z : ℤ, astypeIntV (Val.num q) = Val.num (z : ℚ) := by
  unfold astypeIntV qtrunc
  by_cases h : 0 ≤ q
  · exact ⟨⌊q⌋, by simp [h]⟩
  · exact ⟨⌈q⌉, by simp [h]⟩

theorem indicatorV_numeric (s : String) (v : Val) : isNumV (indicatorV s v) = true := by
  unfold indicatorV
  split <;> rfl

theorem imputedLoanCol_numeric (c0 : Col) (hshape : ∀ v ∈ c0, numOrNull v = true)
    (hsome : ∃ q, Val.num q ∈ c0) :
    ∀ v ∈ imputedLoanCol c0, isNumV v = true := by
  obtain ⟨q, hq⟩ := hsome
  obtain ⟨p, hp⟩ := median_num_of_mem c0 q hq
  unfold imputedLoanCol
  rw [hp]
  exact fillnaV_numeric _ _ rfl hshape

theorem loanColAtDivision_num_nonzero (c : Col) (hnum : ∀ v ∈ c, isNumV v = true)
    (hmed : Col.median c ≠ Val.num 0) :
    ∀ v ∈ loanColAtDivision c, ∃ q, v = Val.num q ∧ q ≠ 0 := by
  intro v hv
  unfold loanColAtDivision replaceV at hv
  obtain ⟨w, hw, hmap⟩ := List.mem_map.1 hv
  have hwnum := hnum w hw
  cases w with
  | str s => simp [isNumV] at hwnum
  | null => simp [isNumV] at hwnum
  | num q =>
    by_cases hq0 : q = 0
    · subst hq0
      rw [if_pos rfl] at hmap
      unfold loanDivisorMedian at hmap
      have hall : c.all isNullV = false := by
        cases hca : c.all isNullV with
        | false => rfl
        | true =>
          have := List.all_eq_true.1 hca _ hw
          simp [isNullV] at this
      rw [hall] at hmap
      simp only [Bool.false_eq_true, if_false] at hmap
      obtain ⟨p, hp⟩ := median_num_of_mem c 0 hw
      rw [hp] at hmap
      subst hmap
      refine ⟨p, rfl, ?_⟩
      intro hp0
      rw [hp0] at hp
      exact hmed hp
    · rw [if_neg (by simp [hq0])] at hmap
      subst hmap
      exact ⟨q, rfl, hq0⟩

theorem loanColAtDivision_numeric (c : Col) (hnum : ∀ v ∈ c, isNumV v = true) :
    ∀ v ∈ loanColAtDivision c, isNumV v = true := by
  intro v hv
  unfold loanColAtDivision replaceV at hv
  obtain ⟨w, hw, hmap⟩ := List.mem_map.1 hv
  have hwnum := hnum w hw
  cases w with
  | str s => simp [isNumV] at hwnum
  | null => simp [isNumV] at hwnum
  | num q =>
    by_cases hq0 : Val.num q = Val.num 0
    · rw [if_pos hq0] at hmap
      unfold loanDivisorMedian at hmap
      have hall : c.all isNullV = false := by
        cases hca : c.all isNullV with
        | false => rfl
        | true =>
          have := List.all_eq_true.1 hca _ hw
          simp [isNullV] at this
      rw [hall] at hmap
      simp only [Bool.false_eq_true, if_false] at hmap
      obtain ⟨p, hp⟩ := median_num_of_mem c q hw
      rw [hp] at hmap
      subst hmap
      rfl
    · rw [if_neg hq0] at hmap
      subst hmap
      rfl

theorem map_numeric (f : Val → Val) (c : Col)
    (hf : ∀ q : ℚ, isNumV (f (Val.num q)) = true)
    (hc : ∀ v ∈ c, isNumV v = true) : ∀ v ∈ c.map f, isNumV v = true := by
  intro v hv
  obtain ⟨w, hw, hmap⟩ := List.mem_map.1 hv
  have hwn := hc w hw
  cases w with
  | str s => simp [isNumV] at hwn
  | null => simp [isNumV] at hwn
  | num q =>
    subst hmap
    exact hf q

theorem capCellLow_numeric (lo q : ℚ) :
    isNumV (if q < lo then Val.num lo else Val.num q) = true := by
  split <;> rfl

theorem capCellHigh_numeric (hi q : ℚ) :
    isNumV (if hi < q then Val.num hi else Val.num q) = true := by
  split <;> rfl

theorem capLoanAmount_numeric (df : DF)
    (hnum : ∀ v ∈ df.get "LoanAmount", isNumV v = true) :
    ∀ v ∈ (capLoanAmount df).get "LoanAmount", isNumV v = true := by
  unfold capLoanAmount
  split
  · split
    · rename_i q1 q3 hq1 hq3
      simp only [DF.get_set_self]
      apply map_numeric
      · intro q
        exact capCellHigh_numeric _ q
      · apply map_numeric
        · intro q
          exact capCellLow_numeric _ q
        · exact hnum
    · exact hnum
  · exact hnum

/-! ## Toolbox: the columns of an inference batch -/

theorem toDFBatch_get_LoanID (b : List LoanApplication) :
    (toDFBatch b).get "Loan_ID" = b.map fun r => Val.str r.Loan_ID := by
  simp [toDFBatch, DF.get, lookupCol]

theorem toDFBatch_hasCol_LoanID (b : List LoanApplication) :
    (toDFBatch b).hasCol "Loan_ID" = true := by
  simp [toDFBatch, DF.hasCol, lookupCol]

theorem toDFBatch_get_Gender (b : List LoanApplication) :
    (toDFBatch b).get "Gender" = b.map fun r => Val.str r.Gender := by
  simp [toDFBatch, DF.get, lookupCol]

theorem toDFBatch_hasCol_Gender (b : List LoanApplication) :
    (toDFBatch b).hasCol "Gender" = true := by
  simp [toDFBatch, DF.hasCol, lookupCol]

theorem toDFBatch_get_Married (b : List LoanApplication) :
    (toDFBatch b).get "Married" = b.map fun r => Val.str r.Married := by
  simp [toDFBatch, DF.get, lookupCol]

theorem toDFBatch_hasCol_Married (b : List LoanApplication) :
    (toDFBatch b).hasCol "Married" = true := by
  simp [toDFBatch, DF.hasCol, lookupCol]

theorem toDFBatch_get_Dependents (b : List LoanApplication) :
    (toDFBatch b).get "Dependents" = b.map fun r => cellOptStr r.Dependents := by
  simp [toDFBatch, DF.get, lookupCol]

theorem toDFBatch_hasCol_Dependents (b : List LoanApplication) :
    (toDFBatch b).hasCol "Dependents" = true := by
  simp [toDFBatch, DF.hasCol, lookupCol]

theorem toDFBatch_get_Education (b : List LoanApplication) :
    (toDFBatch b).get "Education" = b.map fun r => Val.str r.Education := by
  simp [toDFBatch, DF.get, lookupCol]

theorem toDFBatch_hasCol_Education (b : List LoanApplication) :
    (toDFBatch b).hasCol "Education" = true := by
  simp [toDFBatch, DF.hasCol, lookupCol]

theorem toDFBatch_get_SelfEmployed (b : List LoanApplication) :
    (toDFBatch b).get "Self_Employed" = b.map fun r => Val.str r.Self_Employed := by
  simp [toDFBatch, DF.get, lookupCol]

theorem toDFBatch_hasCol_SelfEmployed (b : List LoanApplication) :
    (toDFBatch b).hasCol "Self_Employed" = true := by
  simp [toDFBatch, DF.hasCol, lookupCol]

theorem toDFBatch_get_ApplicantIncome (b : List LoanApplication) :
    (toDFBatch b).get "ApplicantIncome" = b.map fun r => Val.num r.ApplicantIncome := by
  simp [toDFBatch, DF.get, lookupCol]

theorem toDFBatch_hasCol_ApplicantIncome (b : List LoanApplication) :
    (toDFBatch b).hasCol "ApplicantIncome" = true := by
  simp [toDFBatch, DF.hasCol, lookupCol]

theorem toDFBatch_get_CoapplicantIncome (b : List LoanApplication) :
    (toDFBatch b).get "CoapplicantIncome" = b.map fun r => Val.num r.CoapplicantIncome := by
  simp [toDFBatch, DF.get, lookupCol]

theorem toDFBatch_hasCol_CoapplicantIncome (b : List LoanApplication) :
    (toDFBatch b).hasCol "CoapplicantIncome" = true := by
  simp [toDFBatch, DF.hasCol, lookupCol]

theorem toDFBatch_get_LoanAmount (b : List LoanApplication) :
    (toDFBatch b).get "LoanAmount" = b.map fun r => cellOptNum r.LoanAmount := by
  simp [toDFBatch, DF.get, lookupCol]

theorem toDFBatch_hasCol_LoanAmount (b : List LoanApplication) :
    (toDFBatch b).hasCol "LoanAmount" = true := by
  simp [toDFBatch, DF.hasCol, lookupCol]

theorem toDFBatch_get_LoanAmountTerm (b : List LoanApplication) :
    (toDFBatch b).get "Loan_Amount_Term" = b.map fun r => cellOptNum r.Loan_Amount_Term := by
  simp [toDFBatch, DF.get, lookupCol]

theorem toDFBatch_hasCol_LoanAmountTerm (b : List LoanApplication) :
    (toDFBatch b).hasCol "Loan_Amount_Term" = true := by
  simp [toDFBatch, DF.hasCol, lookupCol]

theorem toDFBatch_get_CreditHistory (b : List LoanApplication) :
    (toDFBatch b).get "Credit_History" = b.map fun r => cellOptNum r.Credit_History := by
  simp [toDFBatch, DF.get, lookupCol]

theorem toDFBatch_hasCol_CreditHistory (b : List LoanApplication) :
    (toDFBatch b).hasCol "Credit_History" = true := by
  simp [toDFBatch, DF.hasCol, lookupCol]

theorem toDFBatch_get_PropertyArea (b : List LoanApplication) :
    (toDFBatch b).get "Property_Area" = b.map fun r => Val.str r.Property_Area := by
  simp [toDFBatch, DF.get, lookupCol]

theorem toDFBatch_hasCol_PropertyArea (b : List LoanApplication) :
    (toDFBatch b).hasCol "Property_Area" = true := by
  simp [toDFBatch, DF.hasCol, lookupCol]

theorem toDFBatch_get_absent (b : List LoanApplication) (n : String)
    (h1 : n ≠ "Loan_ID") (h2 : n ≠ "Gender") (h3 : n ≠ "Married") (h4 : n ≠ "Dependents") (h5 : n ≠ "Education") (h6 : n ≠ "Self_Employed") (h7 : n ≠ "ApplicantIncome") (h8 : n ≠ "CoapplicantIncome") (h9 : n ≠ "LoanAmount") (h10 : n ≠ "Loan_Amount_Term") (h11 : n ≠ "Credit_History") (h12 : n ≠ "Property_Area") :
    (toDFBatch b).get n = [] := by
  simp [toDFBatch, DF.get, lookupCol, Ne.symm h1, Ne.symm h2, Ne.symm h3, Ne.symm h4, Ne.symm h5, Ne.symm h6, Ne.symm h7, Ne.symm h8, Ne.symm h9, Ne.symm h10, Ne.symm h11, Ne.symm h12]

theorem toDFBatch_hasCol_absent (b : List LoanApplication) (n : String)
    (h1 : n ≠ "Loan_ID") (h2 : n ≠ "Gender") (h3 : n ≠ "Married") (h4 : n ≠ "Dependents") (h5 : n ≠ "Education") (h6 : n ≠ "Self_Employed") (h7 : n ≠ "ApplicantIncome") (h8 : n ≠ "CoapplicantIncome") (h9 : n ≠ "LoanAmount") (h10 : n ≠ "Loan_Amount_Term") (h11 : n ≠ "Credit_History") (h12 : n ≠ "Property_Area") :
    (toDFBatch b).hasCol n = false := by
  simp [toDFBatch, DF.hasCol, lookupCol, Ne.symm h1, Ne.symm h2, Ne.symm h3, Ne.symm h4, Ne.symm h5, Ne.symm h6, Ne.symm h7, Ne.symm h8, Ne.symm h9, Ne.symm h10, Ne.symm h11, Ne.symm h12]

/-! ## Claims about the inference endpoint -/

/-- A model capability whose class output reveals how many columns the
frame passed to it has; legitimate, since the loaded model artifact is
opaque and only consumed through its predict capabilities. -/
def colCountModel : Model :=
  { predictClass := fun d => (d.cols.length : ℤ)
    predictProba := fun _ => 0 }

/-- C1, counterexample: the endpoint does not reconcile the cleaned frame
against the persisted CanonicalColumnList before invoking the model.  With
the canonical list `["TotalIncome"]`, the spec's pipeline would hand the
model a one-column frame, but `predict_loan_status` hands it the full
16-column cleaned frame: the responses differ. -/
theorem C1_no_align_counterexample :
    predict_loan_status colCountModel ["TotalIncome"] exampleApplication ≠
      predict_with_align colCountModel ["TotalIncome"] exampleApplication := by
  decide

/-- C1 (amended): for every inference request, the endpoint wraps the
record as a one-element batch, applies the Transformer, drops the
identifier/label columns, and invokes the trained model directly on that
frame; the persisted CanonicalColumnList (`feature_cols`) is loaded but no
alignment against it — no insertion of absent canonical columns, no
dropping of extras, no reordering — takes place, as the response is the
same for every canonical list. -/
theorem C1_endpoint_drops_then_predicts (model : Model) (feature_cols : List String)
    (application : LoanApplication) (d : DF)
    (h : clean_raw_df (toDF application) = .ok d) :
    predict_loan_status model feature_cols application =
      .ok { prediction := model.predictClass (d.dropCols ["Loan_ID", "Loan_Status"])
            probability := model.predictProba (d.dropCols ["Loan_ID", "Loan_Status"]) } := by
  simp only [predict_loan_status]
  rw [h]
  simp [exceptBind_ok]

/-- The cleaned frame of the spec §8 example record. -/
def cleanedExample : DF :=
  match clean_raw_df (toDF exampleApplication) with
  | .ok d => d
  | .error _ => ⟨[]⟩

/-- C1 witness: the amended claim at the spec §8 example record and the
column-counting model. -/
theorem C1_endpoint_drops_then_predicts_witness :
    predict_loan_status colCountModel ["TotalIncome"] exampleApplication =
      .ok { prediction := colCountModel.predictClass
              (cleanedExample.dropCols ["Loan_ID", "Loan_Status"])
            probability := colCountModel.predictProba
              (cleanedExample.dropCols ["Loan_ID", "Loan_Status"]) } :=
  C1_endpoint_drops_then_predicts colCountModel ["TotalIncome"] exampleApplication
    cleanedExample (by decide)

/-- A model capability pair at the decision boundary: class 0 with
positive-class probability exactly 0.5 (sklearn's `predict` for a binary
logistic model at its boundary also returns 0 while `predict_proba` is
0.5, so this is the behaviour of a real artifact). -/
def boundaryModel : Model :=
  { predictClass := fun _ => 0
    predictProba := fun _ => 1 / 2 }

/-- C2: the endpoint returns `int(pred_class)` — the model's own predicted
class — and not the thresholded `prediction = int(pred_prob >= 0.5)`
computed on line 47, which is dead.  At a probability of exactly 0.5 the
response carries predicted class 0 next to probability 0.5, violating the
claimed "class 1 iff probability ≥ 0.5" (inclusive-threshold) contract. -/
theorem C2_threshold_variable_discarded :
    predict_loan_status boundaryModel [] exampleApplication =
      .ok { prediction := 0, probability := 1 / 2 } ∧
    ((1 : ℚ) / 2 ≥ 1 / 2) := by
  constructor
  · decide
  · norm_num

/-! ## Claim about the training orchestrator -/

/-- C9: `train_and_save` fails with FileNotFoundError when the training
CSV path does not exist (checked first, before anything else runs), and
with the fatal ValueError when the label column `Loan_Status` is absent
from the cleaned dataframe; in both cases the error is returned before the
training computation and the persistence step (step 10, the only point
that writes artifacts) run, so no model or feature-list artifact is
written (the write log is empty). -/
theorem C9_train_errors_persist_nothing (env : TrainEnv)
    (raw_csv_path out_model_path out_features_path : String) :
    (env.csvExists = false →
      train_and_save env raw_csv_path out_model_path out_features_path =
        (.error ("FileNotFoundError: Training CSV not found: " ++ raw_csv_path), [])) ∧
    (∀ d, env.csvExists = true → clean_raw_df env.rawDf = .ok d →
      d.hasCol "Loan_Status" = false →
      train_and_save env raw_csv_path out_model_path out_features_path =
        (.error "ValueError: 'Loan_Status' not found in cleaned dataframe. Ensure target column exists in raw CSV.", [])) := by
  constructor
  · intro h
    unfold train_and_save
    rw [h]
    simp
  · intro d hcsv hclean hls
    unfold train_and_save
    rw [hcsv, hclean]
    simp [hls]

/-- Training environment with a missing CSV. -/
def envNoCsv : TrainEnv := ⟨false, ⟨[]⟩, fun _ _ => 0⟩

/-- Training environment whose CSV cleans to a frame without Loan_Status. -/
def envNoLabel : TrainEnv := ⟨true, ⟨[]⟩, fun _ _ => 0⟩

/-- The cleaned form of the empty frame (only the two derived columns are
added, both empty). -/
def cleanedEmpty : DF := ⟨[("TotalIncome", []), ("Income_to_Loan_Ratio", [])]⟩

/-- C9 witness: both error paths at concrete environments, with empty
write logs. -/
theorem C9_train_errors_persist_nothing_witness :
    train_and_save envNoCsv "data/raw/loan_train.csv" "models/model.pkl" "models/features.pkl" =
      (.error "FileNotFoundError: Training CSV not found: data/raw/loan_train.csv", []) ∧
    train_and_save envNoLabel "data/raw/loan_train.csv" "models/model.pkl" "models/features.pkl" =
      (.error "ValueError: 'Loan_Status' not found in cleaned dataframe. Ensure target column exists in raw CSV.", []) :=
  ⟨(C9_train_errors_persist_nothing envNoCsv "data/raw/loan_train.csv" "models/model.pkl"
      "models/features.pkl").1 rfl,
   (C9_train_errors_persist_nothing envNoLabel "data/raw/loan_train.csv" "models/model.pkl"
      "models/features.pkl").2 cleanedEmpty rfl (by decide) (by decide)⟩

theorem hasCol_imputeLoanAmount_self (df : DF) :
    (imputeLoanAmount df).hasCol "LoanAmount" = df.hasCol "LoanAmount" := by
  unfold imputeLoanAmount
  split
  · rename_i h
    rw [DF.hasCol_set_self, h]
  · rfl

theorem hasCol_imputeApplicantIncome_self (df : DF) :
    (imputeApplicantIncome df).hasCol "ApplicantIncome" = df.hasCol "ApplicantIncome" := by
  unfold imputeApplicantIncome
  split
  · rename_i h
    rw [DF.hasCol_set_self, h]
  · rfl

theorem hasCol_imputeCoapplicantIncome_self (df : DF) :
    (imputeCoapplicantIncome df).hasCol "CoapplicantIncome" = df.hasCol "CoapplicantIncome" := by
  unfold imputeCoapplicantIncome
  split
  · rename_i h
    rw [DF.hasCol_set_self, h]
  · rfl

/-! ## Claim C10: the derived columns are always added -/

/-- C10: every per-field cleaning block of the Transformer is guarded by a
column-presence check, and the `TotalIncome` / `Income_to_Loan_Ratio`
blocks add their derived column in both branches of the guard, so every
successful transform output contains the two derived columns; when the
income input columns (respectively the LoanAmount column) are absent from
the batch, the corresponding derived column is filled with nulls instead
of the call failing. -/
theorem C10_derived_columns_always_added (df out : DF)
    (hclean : clean_raw_df df = .ok out) :
    out.hasCol "TotalIncome" = true ∧
    out.hasCol "Income_to_Loan_Ratio" = true ∧
    ((df.hasCol "ApplicantIncome" = false ∨ df.hasCol "CoapplicantIncome" = false) →
      ∀ v ∈ out.get "TotalIncome", v = Val.null) ∧
    (df.hasCol "LoanAmount" = false →
      ∀ v ∈ out.get "Income_to_Loan_Ratio", v = Val.null) := by
  obtain ⟨df4, df7, df8, df9, df10, df14, h4, h7, h8, h9, h10, h14, hout⟩ :=
    clean_raw_df_parts df out hclean
  subst hout
  have hAI10 : df10.hasCol "ApplicantIncome" = df.hasCol "ApplicantIncome" := by
    rw [hasCol_cleanupDependents _ _ _ h10 (by decide),
      hasCol_imputeDependentsNa _ _ _ h9 (by decide),
      hasCol_imputeMarried _ _ _ h8 (by decide),
      hasCol_imputeGender _ _ _ h7 (by decide),
      hasCol_imputeSelfEmployed _ _ (by decide),
      hasCol_imputeCreditHistory _ _ (by decide),
      hasCol_imputeLoanAmountTerm _ _ _ h4 (by decide),
      hasCol_imputeCoapplicantIncome _ _ (by decide),
      hasCol_imputeApplicantIncome_self,
      hasCol_imputeLoanAmount _ _ (by decide)]
  have hCI10 : df10.hasCol "CoapplicantIncome" = df.hasCol "CoapplicantIncome" := by
    rw [hasCol_cleanupDependents _ _ _ h10 (by decide),
      hasCol_imputeDependentsNa _ _ _ h9 (by decide),
      hasCol_imputeMarried _ _ _ h8 (by decide),
      hasCol_imputeGender _ _ _ h7 (by decide),
      hasCol_imputeSelfEmployed _ _ (by decide),
      hasCol_imputeCreditHistory _ _ (by decide),
      hasCol_imputeLoanAmountTerm _ _ _ h4 (by decide),
      hasCol_imputeCoapplicantIncome_self,
      hasCol_imputeApplicantIncome _ _ (by decide),
      hasCol_imputeLoanAmount _ _ (by decide)]
  have hLA11 : (addTotalIncome df10).hasCol "LoanAmount" = df.hasCol "LoanAmount" := by
    rw [hasCol_addTotalIncome _ _ (by decide),
      hasCol_cleanupDependents _ _ _ h10 (by decide),
      hasCol_imputeDependentsNa _ _ _ h9 (by decide),
      hasCol_imputeMarried _ _ _ h8 (by decide),
      hasCol_imputeGender _ _ _ h7 (by decide),
      hasCol_imputeSelfEmployed _ _ (by decide),
      hasCol_imputeCreditHistory _ _ (by decide),
      hasCol_imputeLoanAmountTerm _ _ _ h4 (by decide),
      hasCol_imputeCoapplicantIncome _ _ (by decide),
      hasCol_imputeApplicantIncome _ _ (by decide),
      hasCol_imputeLoanAmount_self]
  have hgetTI : (mapLoanStatus (propertyStep (encodeSelfEmployed (encodeEducation
      (encodeMarried (encodeGender (capLoanAmount df14))))))).get "TotalIncome" =
      (addTotalIncome df10).get "TotalIncome" := by
    rw [get_mapLoanStatus _ _ (by decide),
      get_propertyStep _ _ (by decide) (by decide) (by decide) (by decide),
      get_encodeSelfEmployed _ _ (by decide),
      get_encodeEducation _ _ (by decide),
      get_encodeMarried _ _ (by decide),
      get_encodeGender _ _ (by decide),
      get_capLoanAmount _ _ (by decide),
      get_capApplicantIncome _ _ _ h14 (by decide),
      get_coappRatioStep _ _ (by decide),
      get_loanRatioStep _ _ (by decide) (by decide)]
  have hgetILR : (mapLoanStatus (propertyStep (encodeSelfEmployed (encodeEducation
      (encodeMarried (encodeGender (capLoanAmount df14))))))).get "Income_to_Loan_Ratio" =
      (loanRatioStep (addTotalIncome df10)).get "Income_to_Loan_Ratio" := by
    rw [get_mapLoanStatus _ _ (by decide),
      get_propertyStep _ _ (by decide) (by decide) (by decide) (by decide),
      get_encodeSelfEmployed _ _ (by decide),
      get_encodeEducation _ _ (by decide),
      get_encodeMarried _ _ (by decide),
      get_encodeGender _ _ (by decide),
      get_capLoanAmount _ _ (by decide),
      get_capApplicantIncome _ _ _ h14 (by decide),
      get_coappRatioStep _ _ (by decide)]
  refine ⟨?_, ?_, ?_, ?_⟩
  · rw [hasCol_mapLoanStatus _ _ (by decide),
      hasCol_propertyStep _ _ (by decide) (by decide) (by decide) (by decide),
      hasCol_encodeSelfEmployed _ _ (by decide),
      hasCol_encodeEducation _ _ (by decide),
      hasCol_encodeMarried _ _ (by decide),
      hasCol_encodeGender _ _ (by decide),
      hasCol_capLoanAmount _ _ (by decide),
      hasCol_capApplicantIncome _ _ _ h14 (by decide),
      hasCol_coappRatioStep _ _ (by decide),
      hasCol_loanRatioStep _ _ (by decide) (by decide)]
    exact hasCol_addTotalIncome_self df10
  · rw [hasCol_mapLoanStatus _ _ (by decide),
      hasCol_propertyStep _ _ (by decide) (by decide) (by decide) (by decide),
      hasCol_encodeSelfEmployed _ _ (by decide),
      hasCol_encodeEducation _ _ (by decide),
      hasCol_encodeMarried _ _ (by decide),
      hasCol_encodeGender _ _ (by decide),
      hasCol_capLoanAmount _ _ (by decide),
      hasCol_capApplicantIncome _ _ _ h14 (by decide),
      hasCol_coappRatioStep _ _ (by decide)]
    exact hasCol_loanRatioStep_ratio (addTotalIncome df10)
  · intro hmiss
    rw [hgetTI, get_addTotalIncome_self]
    have hcond : (df10.hasCol "ApplicantIncome" && df10.hasCol "CoapplicantIncome") = false := by
      rcases hmiss with hm | hm
      · rw [hAI10, hm]
        simp
      · rw [hCI10, hm]
        simp
    rw [if_neg (by simp [hcond])]
    intro v hv
    exact List.eq_of_mem_replicate hv
  · intro hmiss
    rw [hgetILR, get_loanRatioStep_ratio]
    rw [if_neg (by simp [hLA11, hmiss])]
    intro v hv
    exact List.eq_of_mem_replicate hv

/-- A frame with only a Gender column. -/
def dfOnlyGender : DF := ⟨[("Gender", [Val.str "Male"])]⟩

/-- Its cleaned form: Gender is encoded, and both derived columns are
added filled with null. -/
def cleanedOnlyGender : DF :=
  ⟨[("Gender", [Val.num 1]), ("TotalIncome", [Val.null]),
    ("Income_to_Loan_Ratio", [Val.null])]⟩

/-- C10 witness: a one-row frame with no income and no LoanAmount column
still transforms, and the two derived columns are present and null. -/
theorem C10_derived_columns_always_added_witness :
    cleanedOnlyGender.hasCol "TotalIncome" = true ∧
    cleanedOnlyGender.hasCol "Income_to_Loan_Ratio" = true ∧
    (cleanedOnlyGender.get "TotalIncome").all isNullV = true ∧
    (cleanedOnlyGender.get "Income_to_Loan_Ratio").all isNullV = true := by
  have T := C10_derived_columns_always_added dfOnlyGender cleanedOnlyGender (by decide)
  refine ⟨T.1, T.2.1, ?_, ?_⟩
  · apply List.all_eq_true.2
    intro v hv
    rw [T.2.2.1 (Or.inl (by decide)) v hv]
    rfl
  · apply List.all_eq_true.2
    intro v hv
    rw [T.2.2.2 (by decide) v hv]
    rfl

/-! ## Claim C8: the Transformer never mutates its input -/

theorem modifyAt_append_last (f : DF → DF) (h : Heap) (x : DF) :
    modifyAt f h.length (h ++ [x]) = h ++ [f x] := by
  induction h with
  | nil => rfl
  | cons d rest ih => simp [modifyAt, ih]

theorem modifyAtE_append_last (f : DF → Except String DF) (h : Heap) (x : DF) :
    modifyAtE f h.length (h ++ [x]) = (f x).map (fun y => h ++ [y]) := by
  induction h with
  | nil =>
    show modifyAtE f 0 (x :: []) = _
    unfold modifyAtE
    cases hf : f x <;> simp [Except.map, exceptBind_ok, exceptBind_err, hf]
  | cons d rest ih =>
    show modifyAtE f (rest.length + 1) (d :: (rest ++ [x])) = _
    unfold modifyAtE
    rw [ih]
    cases hf : f x <;> simp [Except.map, exceptBind_ok, exceptBind_err]

/-- The heap-passing rendition agrees with the pure Transformer: it
allocates the copy at the fresh address and only ever writes there. -/
theorem clean_raw_df_heap_spec (h : Heap) (i : ℕ) :
    clean_raw_df_heap h i =
      (clean_raw_df (heapGet h i)).map (fun d => (h ++ [d], h.length)) := by
  simp only [clean_raw_df_heap, clean_raw_df]
  rw [modifyAt_append_last, modifyAt_append_last, modifyAt_append_last,
    modifyAtE_append_last]
  cases h4 : imputeLoanAmountTerm
      (imputeCoapplicantIncome (imputeApplicantIncome (imputeLoanAmount (heapGet h i)))) with
  | error e => simp [Except.map, exceptBind_err]
  | ok d4 =>
    simp only [Except.map, exceptBind_ok]
    rw [modifyAt_append_last, modifyAt_append_last, modifyAtE_append_last]
    cases h7 : imputeGender (imputeSelfEmployed (imputeCreditHistory d4)) with
    | error e => simp [Except.map, exceptBind_err]
    | ok d7 =>
      simp only [Except.map, exceptBind_ok]
      rw [modifyAtE_append_last]
      cases h8 : imputeMarried d7 with
      | error e => simp [Except.map, exceptBind_err]
      | ok d8 =>
        simp only [Except.map, exceptBind_ok]
        rw [modifyAtE_append_last]
        cases h9 : imputeDependentsNa d8 with
        | error e => simp [Except.map, exceptBind_err]
        | ok d9 =>
          simp only [Except.map, exceptBind_ok]
          rw [modifyAtE_append_last]
          cases h10 : cleanupDependents d9 with
          | error e => simp [Except.map, exceptBind_err]
          | ok d10 =>
            simp only [Except.map, exceptBind_ok]
            rw [modifyAt_append_last, modifyAt_append_last, modifyAt_append_last,
              modifyAtE_append_last]
            cases h14 : capApplicantIncome
                (coappRatioStep (loanRatioStep (addTotalIncome d10))) with
            | error e => simp [Except.map, exceptBind_err]
            | ok d14 =>
              simp only [Except.map, exceptBind_ok]
              rw [modifyAt_append_last, modifyAt_append_last, modifyAt_append_last,
                modifyAt_append_last, modifyAt_append_last, modifyAt_append_last,
                modifyAt_append_last]
              simp [exceptPure]

/-- C8: run statement by statement on the heap of DataFrame objects, the
Transformer leaves the caller's frame untouched: the input address still
holds the original object, the result lives at a fresh address, and the
object there is exactly the pure `clean_raw_df` of the input. -/
theorem C8_input_never_mutated (h : Heap) (i : ℕ) (h2 : Heap) (j : ℕ)
    (hi : i < h.length) (hrun : clean_raw_df_heap h i = .ok (h2, j)) :
    h2[i]? = h[i]? ∧ j ≠ i ∧ h2[j]? = (clean_raw_df (heapGet h i)).toOption := by
  rw [clean_raw_df_heap_spec] at hrun
  cases hc : clean_raw_df (heapGet h i) with
  | error e =>
    rw [hc] at hrun
    simp [Except.map] at hrun
  | ok d =>
    rw [hc] at hrun
    simp only [Except.map, Except.ok.injEq, Prod.mk.injEq] at hrun
    obtain ⟨hh2, hj⟩ := hrun
    subst hh2
    subst hj
    refine ⟨?_, ?_, ?_⟩
    · rw [List.getElem?_append]
      rw [if_pos hi]
    · omega
    · rw [List.getElem?_append]
      rw [if_neg (by omega)]
      simp [Except.toOption]

/-- C8 witness: a concrete one-object heap holding the spec §8 example. -/
theorem C8_input_never_mutated_witness :
    [toDF exampleApplication, cleanedExample][0]? = [toDF exampleApplication][0]? ∧
    (1 : ℕ) ≠ 0 ∧
    [toDF exampleApplication, cleanedExample][1]? =
      (clean_raw_df (heapGet [toDF exampleApplication] 0)).toOption :=
  C8_input_never_mutated [toDF exampleApplication] 0 [toDF exampleApplication, cleanedExample] 1
    (by decide) (by decide)

/-! ## Claim C4: the zero-LoanAmount replacement -/

/-- The spec §8 example with a LoanAmount of exactly 0. -/
def zeroLoanApplication : LoanApplication :=
  { exampleApplication with Loan_ID := "LP000", LoanAmount := some 0 }

/-- C4, counterexample: on a one-record batch whose LoanAmount is 0, the
replacement value `df['LoanAmount'].median()` is itself 0, so the 0
survives `replace(0, loan_median)`, reaches the division, and is still 0
in the transform output — the claim's "never 0 after transform / a zero
never reaches the division" fails. -/
theorem C4_zero_survives_counterexample :
    (clean_raw_df (toDF zeroLoanApplication)).toOption.map
        (fun d => d.get "LoanAmount") = some [Val.num 0] ∧
    loanColAtDivision (imputedLoanCol [Val.num 0]) = [Val.num 0] := by
  constructor
  · decide
  · decide

/-- C4 (amended): a LoanAmount value of exactly 0 is replaced, before the
`Income_to_Loan_Ratio` division, by the batch median of the imputed column
(1.0 only when the whole column is null).  Provided the batch has at least
one non-null LoanAmount and that median is nonzero, every LoanAmount value
at the division is numeric and nonzero, so no zero reaches the division;
when the median is itself 0 (for example a one-record batch with
LoanAmount 0) a zero does reach the division, and the final output can be
0 or null. -/
theorem C4_no_zero_at_division (c0 : Col)
    (hshape : ∀ v ∈ c0, numOrNull v = true)
    (hsome : ∃ q, Val.num q ∈ c0)
    (hmed : Col.median (imputedLoanCol c0) ≠ Val.num 0) :
    ∀ v ∈ loanColAtDivision (imputedLoanCol c0), ∃ q, v = Val.num q ∧ q ≠ 0 := by
  have hnum := imputedLoanCol_numeric c0 hshape hsome
  exact loanColAtDivision_num_nonzero (imputedLoanCol c0) hnum hmed

/-- C4 witness: a column with one value 100 and one null; after the median
imputation no cell at the division is zero or null. -/
theorem C4_no_zero_at_division_witness :
    Val.num 100 ∈ loanColAtDivision (imputedLoanCol [Val.num 100, Val.null]) ∧
    ∃ q, Val.num 100 = Val.num q ∧ q ≠ 0 :=
  ⟨by decide,
   C4_no_zero_at_division [Val.num 100, Val.null] (by decide) ⟨100, by decide⟩
     (by decide) (Val.num 100) (by decide)⟩

/-! ## Claim C5: when the Transformer completes without raising -/

theorem imputeLoanAmountTerm_succeeds (df : DF)
    (hm : ∃ m, Col.mode (df.get "Loan_Amount_Term") = some m) :
    ∃ df2, imputeLoanAmountTerm df = .ok df2 := by
  unfold imputeLoanAmountTerm
  split
  · obtain ⟨m, hm⟩ := hm
    rw [hm]
    exact ⟨_, rfl⟩
  · exact ⟨df, rfl⟩

theorem imputeGender_succeeds (df : DF)
    (hm : ∃ m, Col.mode (df.get "Gender") = some m) :
    ∃ df2, imputeGender df = .ok df2 := by
  unfold imputeGender
  split
  · obtain ⟨m, hm⟩ := hm
    rw [hm]
    exact ⟨_, rfl⟩
  · exact ⟨df, rfl⟩

theorem imputeMarried_succeeds (df : DF)
    (hm : ∃ m, Col.mode (df.get "Married") = some m) :
    ∃ df2, imputeMarried df = .ok df2 := by
  unfold imputeMarried
  split
  · obtain ⟨m, hm⟩ := hm
    rw [hm]
    exact ⟨_, rfl⟩
  · exact ⟨df, rfl⟩

theorem imputeDependentsNa_succeeds (df : DF)
    (hm : ∃ m, Col.mode (df.get "Dependents") = some m) :
    ∃ df2, imputeDependentsNa df = .ok df2 := by
  unfold imputeDependentsNa
  split
  · obtain ⟨m, hm⟩ := hm
    rw [hm]
    exact ⟨_, rfl⟩
  · exact ⟨df, rfl⟩

theorem cleanupDependents_succeeds (df : DF)
    (hm : ∃ m, Col.mode ((df.get "Dependents").map depCoerceV) = some m) :
    ∃ df2, cleanupDependents df = .ok df2 := by
  simp only [cleanupDependents]
  split
  · split
    · obtain ⟨m, hm⟩ := hm
      rw [hm]
      exact ⟨_, rfl⟩
    · exact ⟨_, rfl⟩
  · exact ⟨df, rfl⟩

theorem capApplicantIncome_succeeds (df : DF)
    (hq : ∃ cap, quantileQ (99 / 100) (Col.nums (df.get "ApplicantIncome")) = some cap) :
    ∃ df2, capApplicantIncome df = .ok df2 := by
  unfold capApplicantIncome
  split
  · obtain ⟨cap, hcap⟩ := hq
    rw [hcap]
    exact ⟨_, rfl⟩
  · exact ⟨df, rfl⟩

theorem get_imputeApplicantIncome_self (df : DF)
    (hc : df.hasCol "ApplicantIncome" = true) :
    (imputeApplicantIncome df).get "ApplicantIncome" =
      fillnaV (Val.num 0) (df.get "ApplicantIncome") := by
  unfold imputeApplicantIncome
  rw [hc]
  simp only [if_true]
  exact DF.get_set_self _ _ _

theorem ne_null_not_isNull (v : Val) (h : v ≠ Val.null) : isNullV v = false := by
  cases v <;> simp_all [isNullV]

/-- The spec §8 example with its nullable fields all null. -/
def allNullApplication : LoanApplication :=
  { exampleApplication with
      Loan_ID := "LP003"
      Dependents := none
      LoanAmount := none
      Loan_Amount_Term := none
      Credit_History := none }

/-- C5, counterexample: a single-record batch whose nullable fields are
all null does not fall back to trivial imputation values — the unguarded
`mode()[0]` on the all-null Loan_Amount_Term (and Dependents) column
raises, so the transform fails instead of completing. -/
theorem C5_all_null_raises_counterexample :
    (clean_raw_df (toDF allNullApplication)).isOk = false := by
  decide

/-- C5 (amended): the transform completes without raising provided the
mode-imputed columns cannot hit an empty mode: at least one record has a
non-null Loan_Amount_Term and at least one Dependents value survives the
"3+"-mapping-plus-numeric-coercion (Gender and Married are non-nullable
in the request schema).  A batch whose Loan_Amount_Term, Gender, Married
or Dependents column is entirely null — in particular the single-record
batch with those fields null — raises a lookup error on the empty
`mode()` instead of falling back; only Credit_History is guarded. -/
theorem C5_transform_succeeds (b : List LoanApplication)
    (hLAT : ∃ r ∈ b, r.Loan_Amount_Term ≠ none)
    (hDep : ∃ r ∈ b, ∃ s, r.Dependents = some s ∧ depCoerceV (.str s) ≠ .null) :
    (clean_raw_df (toDFBatch b)).isOk = true := by
  obtain ⟨r0, hr0, hr0t⟩ := hLAT
  obtain ⟨r1, hr1, s1, hs1, hs1p⟩ := hDep
  obtain ⟨q0, hq0⟩ : ∃ q, r0.Loan_Amount_Term = some q := by
    cases hx : r0.Loan_Amount_Term with
    | none => exact absurd hx hr0t
    | some q => exact ⟨q, rfl⟩
  -- stage A: the three unconditional numeric imputations
  have hgetLATA :
      (imputeCoapplicantIncome (imputeApplicantIncome
        (imputeLoanAmount (toDFBatch b)))).get "Loan_Amount_Term" =
      b.map fun r => cellOptNum r.Loan_Amount_Term := by
    rw [get_imputeCoapplicantIncome _ _ (by decide),
      get_imputeApplicantIncome _ _ (by decide),
      get_imputeLoanAmount _ _ (by decide), toDFBatch_get_LoanAmountTerm]
  have hmLAT : ∃ m, Col.mode ((imputeCoapplicantIncome (imputeApplicantIncome
      (imputeLoanAmount (toDFBatch b)))).get "Loan_Amount_Term") = some m := by
    rw [hgetLATA]
    exact mode_isSome_of_mem _ (Val.num q0)
      (List.mem_map.2 ⟨r0, hr0, by rw [hq0]; rfl⟩) rfl
  obtain ⟨df4, h4⟩ := imputeLoanAmountTerm_succeeds _ hmLAT
  -- stage B: Credit_History (guarded) and Self_Employed
  have hgetGB : (imputeSelfEmployed (imputeCreditHistory df4)).get "Gender" =
      b.map fun r => Val.str r.Gender := by
    rw [get_imputeSelfEmployed _ _ (by decide),
      get_imputeCreditHistory _ _ (by decide),
      get_imputeLoanAmountTerm _ _ _ h4 (by decide),
      get_imputeCoapplicantIncome _ _ (by decide),
      get_imputeApplicantIncome _ _ (by decide),
      get_imputeLoanAmount _ _ (by decide), toDFBatch_get_Gender]
  have hmG : ∃ m, Col.mode ((imputeSelfEmployed
      (imputeCreditHistory df4)).get "Gender") = some m := by
    rw [hgetGB]
    exact mode_isSome_of_mem _ (Val.str r0.Gender)
      (List.mem_map.2 ⟨r0, hr0, rfl⟩) rfl
  obtain ⟨df7, h7⟩ := imputeGender_succeeds _ hmG
  have hgetMB : df7.get "Married" = b.map fun r => Val.str r.Married := by
    rw [get_imputeGender _ _ _ h7 (by decide),
      get_imputeSelfEmployed _ _ (by decide),
      get_imputeCreditHistory _ _ (by decide),
      get_imputeLoanAmountTerm _ _ _ h4 (by decide),
      get_imputeCoapplicantIncome _ _ (by decide),
      get_imputeApplicantIncome _ _ (by decide),
      get_imputeLoanAmount _ _ (by decide), toDFBatch_get_Married]
  have hmM : ∃ m, Col.mode (df7.get "Married") = some m := by
    rw [hgetMB]
    exact mode_isSome_of_mem _ (Val.str r0.Married)
      (List.mem_map.2 ⟨r0, hr0, rfl⟩) rfl
  obtain ⟨df8, h8⟩ := imputeMarried_succeeds _ hmM
  have hgetD8 : df8.get "Dependents" = b.map fun r => cellOptStr r.Dependents := by
    rw [get_imputeMarried _ _ _ h8 (by decide),
      get_imputeGender _ _ _ h7 (by decide),
      get_imputeSelfEmployed _ _ (by decide),
      get_imputeCreditHistory _ _ (by decide),
      get_imputeLoanAmountTerm _ _ _ h4 (by decide),
      get_imputeCoapplicantIncome _ _ (by decide),
      get_imputeApplicantIncome _ _ (by decide),
      get_imputeLoanAmount _ _ (by decide), toDFBatch_get_Dependents]
  have hcellD : Val.str s1 ∈ df8.get "Dependents" := by
    rw [hgetD8]
    exact List.mem_map.2 ⟨r1, hr1, by rw [hs1]; rfl⟩
  have hmD : ∃ m, Col.mode (df8.get "Dependents") = some m :=
    mode_isSome_of_mem _ (Val.str s1) hcellD rfl
  obtain ⟨df9, h9⟩ := imputeDependentsNa_succeeds _ hmD
  have hhasD8 : df8.hasCol "Dependents" = true := by
    rw [hasCol_imputeMarried _ _ _ h8 (by decide),
      hasCol_imputeGender _ _ _ h7 (by decide),
      hasCol_imputeSelfEmployed _ _ (by decide),
      hasCol_imputeCreditHistory _ _ (by decide),
      hasCol_imputeLoanAmountTerm _ _ _ h4 (by decide),
      hasCol_imputeCoapplicantIncome _ _ (by decide),
      hasCol_imputeApplicantIncome _ _ (by decide),
      hasCol_imputeLoanAmount _ _ (by decide), toDFBatch_hasCol_Dependents]
  obtain ⟨mD, hmD9, hget9, hhas9⟩ := imputeDependentsNa_ok_self df8 df9 h9 hhasD8
  have hmD2 : ∃ m, Col.mode ((df9.get "Dependents").map depCoerceV) = some m := by
    rw [hget9]
    apply mode_isSome_of_mem _ (depCoerceV (Val.str s1))
    · apply List.mem_map.2
      refine ⟨Val.str s1, ?_, rfl⟩
      unfold fillnaV
      exact List.mem_map.2 ⟨Val.str s1, hcellD, rfl⟩
    · exact ne_null_not_isNull _ hs1p
  obtain ⟨df10, h10⟩ := cleanupDependents_succeeds _ hmD2
  -- ApplicantIncome is a required float column, so its 99th percentile exists
  have hhasAI1 : (imputeLoanAmount (toDFBatch b)).hasCol "ApplicantIncome" = true := by
    rw [hasCol_imputeLoanAmount _ _ (by decide), toDFBatch_hasCol_ApplicantIncome]
  have hgetAI : (coappRatioStep (loanRatioStep (addTotalIncome df10))).get
      "ApplicantIncome" =
      fillnaV (Val.num 0) (b.map fun r => Val.num r.ApplicantIncome) := by
    rw [get_coappRatioStep _ _ (by decide),
      get_loanRatioStep _ _ (by decide) (by decide),
      get_addTotalIncome _ _ (by decide),
      get_cleanupDependents _ _ _ h10 (by decide),
      get_imputeDependentsNa _ _ _ h9 (by decide),
      get_imputeMarried _ _ _ h8 (by decide),
      get_imputeGender _ _ _ h7 (by decide),
      get_imputeSelfEmployed _ _ (by decide),
      get_imputeCreditHistory _ _ (by decide),
      get_imputeLoanAmountTerm _ _ _ h4 (by decide),
      get_imputeCoapplicantIncome _ _ (by decide),
      get_imputeApplicantIncome_self _ hhasAI1,
      get_imputeLoanAmount _ _ (by decide), toDFBatch_get_ApplicantIncome]
  have hq : ∃ cap, quantileQ (99 / 100) (Col.nums
      ((coappRatioStep (loanRatioStep (addTotalIncome df10))).get
        "ApplicantIncome")) = some cap := by
    rw [hgetAI]
    apply quantileQ_isSome
    apply nums_ne_nil_of_mem _ r0.ApplicantIncome
    unfold fillnaV
    exact List.mem_map.2 ⟨Val.num r0.ApplicantIncome,
      List.mem_map.2 ⟨r0, hr0, rfl⟩, rfl⟩
  obtain ⟨df14, h14⟩ := capApplicantIncome_succeeds _ hq
  -- assemble the pipeline
  simp only [clean_raw_df]
  rw [h4]
  simp only [exceptBind_ok]
  rw [h7]
  simp only [exceptBind_ok]
  rw [h8]
  simp only [exceptBind_ok]
  rw [h9]
  simp only [exceptBind_ok]
  rw [h10]
  simp only [exceptBind_ok]
  rw [h14]
  simp only [exceptBind_ok, exceptPure]
  rfl

/-- C5 witness: the one-record batch of the spec §8 example (its
Loan_Amount_Term is 360 and its Dependents value "3+" coerces to 3). -/
theorem C5_transform_succeeds_witness :
    (clean_raw_df (toDFBatch [exampleApplication])).isOk = true :=
  C5_transform_succeeds [exampleApplication]
    ⟨exampleApplication, by decide, by decide⟩
    ⟨exampleApplication, by decide, "3+", by decide, by decide⟩

/-! ## Claim C6: the Property_Area one-hot expansion -/

/-- A cell is the boolean-as-integer 0 or 1. -/
def isZeroOne (v : Val) : Bool :=
  if v = Val.num 0 then true else if v = Val.num 1 then true else false

/-- Row-wise one-hot soundness of three aligned columns: every cell is 0
or 1 and at most one of the three cells in a row is 1. -/
def oneHot3Ok : Col → Col → Col → Bool
  | v1 :: r1, v2 :: r2, v3 :: r3 =>
    isZeroOne v1 && isZeroOne v2 && isZeroOne v3 &&
    decide ((if v1 = Val.num 1 then 1 else 0) + (if v2 = Val.num 1 then 1 else 0) +
      (if v3 = Val.num 1 then (1 : ℕ) else 0) ≤ 1) &&
    oneHot3Ok r1 r2 r3
  | _, _, _ => true

theorem oneHot3Ok_indicators (c : Col) :
    oneHot3Ok (c.map (indicatorV "Rural")) (c.map (indicatorV "Semiurban"))
      (c.map (indicatorV "Urban")) = true := by
  induction c with
  | nil => rfl
  | cons v rest ih =>
    simp only [List.map, oneHot3Ok]
    rw [ih]
    simp only [Bool.and_true]
    unfold indicatorV
    by_cases h1 : v = Val.str "Rural" <;> by_cases h2 : v = Val.str "Semiurban" <;>
      by_cases h3 : v = Val.str "Urban" <;> simp_all [isZeroOne]

/-- Everything the pipeline does before the one-hot step leaves a column
with a name it does not touch unchanged. -/
theorem prePropertyChain (df df4 df7 df8 df9 df10 df14 : DF)
    (h4 : imputeLoanAmountTerm
      (imputeCoapplicantIncome (imputeApplicantIncome (imputeLoanAmount df))) = .ok df4)
    (h7 : imputeGender (imputeSelfEmployed (imputeCreditHistory df4)) = .ok df7)
    (h8 : imputeMarried df7 = .ok df8)
    (h9 : imputeDependentsNa df8 = .ok df9)
    (h10 : cleanupDependents df9 = .ok df10)
    (h14 : capApplicantIncome (coappRatioStep (loanRatioStep (addTotalIncome df10))) = .ok df14)
    (n : String)
    (hn1 : n ≠ "LoanAmount") (hn2 : n ≠ "ApplicantIncome")
    (hn3 : n ≠ "CoapplicantIncome") (hn4 : n ≠ "Loan_Amount_Term")
    (hn5 : n ≠ "Credit_History") (hn6 : n ≠ "Self_Employed")
    (hn7 : n ≠ "Gender") (hn8 : n ≠ "Married") (hn9 : n ≠ "Dependents")
    (hn10 : n ≠ "TotalIncome") (hn11 : n ≠ "Income_to_Loan_Ratio")
    (hn12 : n ≠ "Applicant_to_Coapp_Ratio") (hn13 : n ≠ "Education") :
    (encodeSelfEmployed (encodeEducation (encodeMarried (encodeGender
      (capLoanAmount df14))))).get n = df.get n ∧
    (encodeSelfEmployed (encodeEducation (encodeMarried (encodeGender
      (capLoanAmount df14))))).hasCol n = df.hasCol n := by
  constructor
  · rw [get_encodeSelfEmployed _ _ hn6, get_encodeEducation _ _ hn13,
      get_encodeMarried _ _ hn8, get_encodeGender _ _ hn7,
      get_capLoanAmount _ _ hn1, get_capApplicantIncome _ _ _ h14 hn2,
      get_coappRatioStep _ _ hn12, get_loanRatioStep _ _ hn1 hn11,
      get_addTotalIncome _ _ hn10, get_cleanupDependents _ _ _ h10 hn9,
      get_imputeDependentsNa _ _ _ h9 hn9, get_imputeMarried _ _ _ h8 hn8,
      get_imputeGender _ _ _ h7 hn7, get_imputeSelfEmployed _ _ hn6,
      get_imputeCreditHistory _ _ hn5, get_imputeLoanAmountTerm _ _ _ h4 hn4,
      get_imputeCoapplicantIncome _ _ hn3, get_imputeApplicantIncome _ _ hn2,
      get_imputeLoanAmount _ _ hn1]
  · rw [hasCol_encodeSelfEmployed _ _ hn6, hasCol_encodeEducation _ _ hn13,
      hasCol_encodeMarried _ _ hn8, hasCol_encodeGender _ _ hn7,
      hasCol_capLoanAmount _ _ hn1, hasCol_capApplicantIncome _ _ _ h14 hn2,
      hasCol_coappRatioStep _ _ hn12, hasCol_loanRatioStep _ _ hn1 hn11,
      hasCol_addTotalIncome _ _ hn10, hasCol_cleanupDependents _ _ _ h10 hn9,
      hasCol_imputeDependentsNa _ _ _ h9 hn9, hasCol_imputeMarried _ _ _ h8 hn8,
      hasCol_imputeGender _ _ _ h7 hn7, hasCol_imputeSelfEmployed _ _ hn6,
      hasCol_imputeCreditHistory _ _ hn5, hasCol_imputeLoanAmountTerm _ _ _ h4 hn4,
      hasCol_imputeCoapplicantIncome _ _ hn3, hasCol_imputeApplicantIncome _ _ hn2,
      hasCol_imputeLoanAmount _ _ hn1]

/-- C6: for every batch with a Property_Area column (and no pre-existing
indicator columns), the transform output drops Property_Area and carries
exactly the three integer indicator columns, each row 0/1-valued with at
most one 1; a category absent from the batch leaves its indicator column
all-0, and a category outside the canonical three sets none of them. -/
theorem C6_property_one_hot (df out : DF)
    (hclean : clean_raw_df df = .ok out)
    (hPA : df.hasCol "Property_Area" = true)
    (hR : df.hasCol "Property_Rural" = false)
    (hS : df.hasCol "Property_Semiurban" = false)
    (hU : df.hasCol "Property_Urban" = false) :
    out.hasCol "Property_Area" = false ∧
    out.hasCol "Property_Rural" = true ∧
    out.hasCol "Property_Semiurban" = true ∧
    out.hasCol "Property_Urban" = true ∧
    out.get "Property_Rural" = (df.get "Property_Area").map (indicatorV "Rural") ∧
    out.get "Property_Semiurban" = (df.get "Property_Area").map (indicatorV "Semiurban") ∧
    out.get "Property_Urban" = (df.get "Property_Area").map (indicatorV "Urban") ∧
    oneHot3Ok (out.get "Property_Rural") (out.get "Property_Semiurban")
      (out.get "Property_Urban") = true := by
  obtain ⟨df4, df7, df8, df9, df10, df14, h4, h7, h8, h9, h10, h14, hout⟩ :=
    clean_raw_df_parts df out hclean
  subst hout
  obtain ⟨hgPA, hhPA⟩ := prePropertyChain df df4 df7 df8 df9 df10 df14 h4 h7 h8 h9 h10 h14
    "Property_Area" (by decide) (by decide) (by decide) (by decide) (by decide)
    (by decide) (by decide) (by decide) (by decide) (by decide) (by decide)
    (by decide) (by decide)
  obtain ⟨hgR, hhR⟩ := prePropertyChain df df4 df7 df8 df9 df10 df14 h4 h7 h8 h9 h10 h14
    "Property_Rural" (by decide) (by decide) (by decide) (by decide) (by decide)
    (by decide) (by decide) (by decide) (by decide) (by decide) (by decide)
    (by decide) (by decide)
  obtain ⟨hgS, hhS⟩ := prePropertyChain df df4 df7 df8 df9 df10 df14 h4 h7 h8 h9 h10 h14
    "Property_Semiurban" (by decide) (by decide) (by decide) (by decide) (by decide)
    (by decide) (by decide) (by decide) (by decide) (by decide) (by decide)
    (by decide) (by decide)
  obtain ⟨hgU, hhU⟩ := prePropertyChain df df4 df7 df8 df9 df10 df14 h4 h7 h8 h9 h10 h14
    "Property_Urban" (by decide) (by decide) (by decide) (by decide) (by decide)
    (by decide) (by decide) (by decide) (by decide) (by decide) (by decide)
    (by decide) (by decide)
  obtain ⟨pR, pS, pU, pPA, phR, phS, phU⟩ :=
    propertyStep_self (encodeSelfEmployed (encodeEducation (encodeMarried (encodeGender
      (capLoanAmount df14))))) (by rw [hhPA]; exact hPA) (by rw [hhR]; exact hR)
      (by rw [hhS]; exact hS) (by rw [hhU]; exact hU)
  have hgetR : (mapLoanStatus (propertyStep (encodeSelfEmployed (encodeEducation
      (encodeMarried (encodeGender (capLoanAmount df14))))))).get "Property_Rural" =
      (df.get "Property_Area").map (indicatorV "Rural") := by
    rw [get_mapLoanStatus _ _ (by decide), pR, hgPA]
  have hgetS : (mapLoanStatus (propertyStep (encodeSelfEmployed (encodeEducation
      (encodeMarried (encodeGender (capLoanAmount df14))))))).get "Property_Semiurban" =
      (df.get "Property_Area").map (indicatorV "Semiurban") := by
    rw [get_mapLoanStatus _ _ (by decide), pS, hgPA]
  have hgetU : (mapLoanStatus (propertyStep (encodeSelfEmployed (encodeEducation
      (encodeMarried (encodeGender (capLoanAmount df14))))))).get "Property_Urban" =
      (df.get "Property_Area").map (indicatorV "Urban") := by
    rw [get_mapLoanStatus _ _ (by decide), pU, hgPA]
  refine ⟨?_, ?_, ?_, ?_, hgetR, hgetS, hgetU, ?_⟩
  · rw [hasCol_mapLoanStatus _ _ (by decide)]
    exact pPA
  · rw [hasCol_mapLoanStatus _ _ (by decide)]
    exact phR
  · rw [hasCol_mapLoanStatus _ _ (by decide)]
    exact phS
  · rw [hasCol_mapLoanStatus _ _ (by decide)]
    exact phU
  · rw [hgetR, hgetS, hgetU]
    exact oneHot3Ok_indicators (df.get "Property_Area")

/-- C6 witness: the spec §8 example (Property_Area "Urban"). -/
theorem C6_property_one_hot_witness :
    cleanedExample.hasCol "Property_Area" = false ∧
    cleanedExample.hasCol "Property_Rural" = true ∧
    cleanedExample.hasCol "Property_Semiurban" = true ∧
    cleanedExample.hasCol "Property_Urban" = true ∧
    cleanedExample.get "Property_Rural" =
      ((toDF exampleApplication).get "Property_Area").map (indicatorV "Rural") ∧
    cleanedExample.get "Property_Semiurban" =
      ((toDF exampleApplication).get "Property_Area").map (indicatorV "Semiurban") ∧
    cleanedExample.get "Property_Urban" =
      ((toDF exampleApplication).get "Property_Area").map (indicatorV "Urban") ∧
    oneHot3Ok (cleanedExample.get "Property_Rural")
      (cleanedExample.get "Property_Semiurban")
      (cleanedExample.get "Property_Urban") = true :=
  C6_property_one_hot (toDF exampleApplication) cleanedExample (by decide) (by decide)
    (by decide) (by decide) (by decide)

/-! ## Claim C7: the Dependents normalization -/

theorem get_eq_nil_of_hasCol_false (df : DF) (n : String)
    (h : df.hasCol n = false) : df.get n = [] := by
  unfold DF.get
  rw [hasCol_lookup_none df n h]
  rfl

theorem imputeDependentsNa_absent (df df2 : DF)
    (h : imputeDependentsNa df = .ok df2) (hc : df.hasCol "Dependents" = false) :
    df2 = df := by
  unfold imputeDependentsNa at h
  rw [hc] at h
  simp only [Bool.false_eq_true, if_false, Except.ok.injEq] at h
  exact h.symm

theorem cleanupDependents_absent (df df2 : DF)
    (h : cleanupDependents df = .ok df2) (hc : df.hasCol "Dependents" = false) :
    df2 = df := by
  simp only [cleanupDependents] at h
  rw [hc] at h
  simp only [Bool.false_eq_true, if_false, Except.ok.injEq] at h
  exact h.symm

theorem mem_of_getElem? {α : Type} (l : List α) (i : ℕ) (a : α)
    (h : l[i]? = some a) : a ∈ l := by
  induction l generalizing i with
  | nil => simp at h
  | cons b rest ih =>
    cases i with
    | zero =>
      simp at h
      rw [h]
      exact List.mem_cons_self _ _
    | succ j =>
      simp only [List.getElem?_cons_succ] at h
      exact List.mem_cons_of_mem _ (ih j h)

theorem astype_col_int (c : Col) (hc : ∀ v ∈ c, isNumV v = true) :
    ∀ v ∈ c.map astypeIntV, ∃ z : ℤ, v = Val.num (z : ℚ) := by
  intro v hv
  obtain ⟨w, hw, hmap⟩ := List.mem_map.1 hv
  have hwn := hc w hw
  cases w with
  | str s => simp [isNumV] at hwn
  | null => simp [isNumV] at hwn
  | num q =>
    obtain ⟨z, hz⟩ := astypeIntV_int q
    exact ⟨z, by rw [← hmap, hz]⟩

/-- The post-Dependents pipeline suffix leaves the Dependents column
unchanged. -/
theorem postDependentsChain (df10 df14 : DF)
    (h14 : capApplicantIncome (coappRatioStep (loanRatioStep (addTotalIncome df10))) = .ok df14) :
    (mapLoanStatus (propertyStep (encodeSelfEmployed (encodeEducation (encodeMarried
      (encodeGender (capLoanAmount df14))))))).get "Dependents" = df10.get "Dependents" := by
  rw [get_mapLoanStatus _ _ (by decide),
    get_propertyStep _ _ (by decide) (by decide) (by decide) (by decide),
    get_encodeSelfEmployed _ _ (by decide), get_encodeEducation _ _ (by decide),
    get_encodeMarried _ _ (by decide), get_encodeGender _ _ (by decide),
    get_capLoanAmount _ _ (by decide), get_capApplicantIncome _ _ _ h14 (by decide),
    get_coappRatioStep _ _ (by decide), get_loanRatioStep _ _ (by decide) (by decide),
    get_addTotalIncome _ _ (by decide)]

/-- The pre-Dependents pipeline prefix leaves the Dependents column
unchanged. -/
theorem preDependentsChain (df df4 df7 df8 : DF)
    (h4 : imputeLoanAmountTerm
      (imputeCoapplicantIncome (imputeApplicantIncome (imputeLoanAmount df))) = .ok df4)
    (h7 : imputeGender (imputeSelfEmployed (imputeCreditHistory df4)) = .ok df7)
    (h8 : imputeMarried df7 = .ok df8) :
    df8.get "Dependents" = df.get "Dependents" ∧
    df8.hasCol "Dependents" = df.hasCol "Dependents" := by
  constructor
  · rw [get_imputeMarried _ _ _ h8 (by decide), get_imputeGender _ _ _ h7 (by decide),
      get_imputeSelfEmployed _ _ (by decide), get_imputeCreditHistory _ _ (by decide),
      get_imputeLoanAmountTerm _ _ _ h4 (by decide),
      get_imputeCoapplicantIncome _ _ (by decide),
      get_imputeApplicantIncome _ _ (by decide), get_imputeLoanAmount _ _ (by decide)]
  · rw [hasCol_imputeMarried _ _ _ h8 (by decide),
      hasCol_imputeGender _ _ _ h7 (by decide),
      hasCol_imputeSelfEmployed _ _ (by decide),
      hasCol_imputeCreditHistory _ _ (by decide),
      hasCol_imputeLoanAmountTerm _ _ _ h4 (by decide),
      hasCol_imputeCoapplicantIncome _ _ (by decide),
      hasCol_imputeApplicantIncome _ _ (by decide),
      hasCol_imputeLoanAmount _ _ (by decide)]

/-- C7: for every record whose Dependents cell is the string "3+", the
transformed Dependents value is exactly the integer 3; a Dependents value
that still fails numeric coercion after the "3+" mapping is replaced by
the batch mode of the already-coerced values (then truncated to int by
`astype(int)`); and the resulting Dependents column is integer-valued
throughout. -/
theorem C7_dependents_normalization (df out : DF)
    (hclean : clean_raw_df df = .ok out) :
    (∀ i : ℕ, (df.get "Dependents")[i]? = some (Val.str "3+") →
      (out.get "Dependents")[i]? = some (Val.num 3)) ∧
    (∀ (i : ℕ) (s : String), (df.get "Dependents")[i]? = some (Val.str s) → s ≠ "3+" →
      parseNum s = none →
      ∃ m1, Col.mode (df.get "Dependents") = some m1 ∧
      ∃ m2, Col.mode ((fillnaV m1 (df.get "Dependents")).map depCoerceV) = some m2 ∧
        (out.get "Dependents")[i]? = some (astypeIntV m2)) ∧
    (∀ v ∈ out.get "Dependents", ∃ z : ℤ, v = Val.num (z : ℚ)) := by
  obtain ⟨df4, df7, df8, df9, df10, df14, h4, h7, h8, h9, h10, h14, hout⟩ :=
    clean_raw_df_parts df out hclean
  subst hout
  obtain ⟨hD8get, hD8has⟩ := preDependentsChain df df4 df7 df8 h4 h7 h8
  have hpost := postDependentsChain df10 df14 h14
  have hd3 : depCoerceV (Val.str "3+") = Val.num 3 := by decide
  have hai3 : astypeIntV (Val.num 3) = Val.num 3 := by decide
  cases hD : df.hasCol "Dependents" with
  | false =>
    have h98 : df9 = df8 := imputeDependentsNa_absent df8 df9 h9 (by rw [hD8has]; exact hD)
    have h109 : df10 = df9 := cleanupDependents_absent df9 df10 h10 (by rw [h98, hD8has]; exact hD)
    have hnil : df.get "Dependents" = [] := get_eq_nil_of_hasCol_false df _ hD
    refine ⟨?_, ?_, ?_⟩
    · intro i hi
      rw [hnil] at hi
      simp at hi
    · intro i s hi
      rw [hnil] at hi
      simp at hi
    · intro v hv
      rw [hpost, h109, h98, hD8get, hnil] at hv
      simp at hv
  | true =>
    have hD8has2 : df8.hasCol "Dependents" = true := by rw [hD8has]; exact hD
    obtain ⟨m1, hm1, hget9, hhas9⟩ := imputeDependentsNa_ok_self df8 df9 h9 hD8has2
    rw [hD8get] at hm1 hget9
    have hC2num : ∀ w ∈ (fillnaV m1 (df.get "Dependents")).map depCoerceV,
        numOrNull w = true := by
      intro w hw
      obtain ⟨u, hu, hmap⟩ := List.mem_map.1 hw
      rw [← hmap]
      exact depCoerceV_numOrNull u
    rcases cleanupDependents_ok_self df9 df10 h10 hhas9 with
      ⟨hanyF, hget10⟩ | ⟨m2, hanyT, hm2, hget10⟩
    · rw [hget9] at hanyF hget10
      refine ⟨?_, ?_, ?_⟩
      · intro i hi
        rw [hpost, hget10]
        simp only [fillnaV, List.getElem?_map, hi, Option.map_some']
        rw [hd3, hai3]
      · intro i s hi hs3 hp
        have hcell : ((fillnaV m1 (df.get "Dependents")).map depCoerceV)[i]? =
            some Val.null := by
          simp only [fillnaV, List.getElem?_map, hi, Option.map_some', depCoerceV]
          rw [if_neg hs3, hp]
        have hmem := mem_of_getElem? _ _ _ hcell
        have : ((fillnaV m1 (df.get "Dependents")).map depCoerceV).any isNullV = true :=
          List.any_eq_true.2 ⟨Val.null, hmem, rfl⟩
        rw [hanyF] at this
        simp at this
      · intro v hv
        rw [hpost, hget10] at hv
        apply astype_col_int _ _ v hv
        intro w hw
        have hnn : isNullV w = false := by
          have := List.any_eq_false.1 (by simpa using hanyF) w hw
          simpa using this
        exact numOrNull_not_null w (hC2num w hw) hnn
    · rw [hget9] at hanyT hm2 hget10
      have hm2num : isNumV m2 = true := by
        have hmem := mode_mem_nonNulls _ _ hm2
        exact numOrNull_not_null m2 (hC2num m2 (nonNulls_subset _ _ hmem))
          (nonNulls_not_null _ _ hmem)
      refine ⟨?_, ?_, ?_⟩
      · intro i hi
        rw [hpost, hget10]
        simp only [fillnaV, List.getElem?_map, hi, Option.map_some']
        rw [hd3]
        exact congrArg some hai3
      · intro i s hi hs3 hp
        refine ⟨m1, hm1, m2, hm2, ?_⟩
        rw [hpost, hget10]
        have hnullc : depCoerceV (Val.str s) = Val.null := by
          simp only [depCoerceV]
          rw [if_neg hs3, hp]
        simp only [fillnaV, List.getElem?_map, hi, Option.map_some']
        rw [hnullc]
      · intro v hv
        rw [hpost, hget10] at hv
        apply astype_col_int _ _ v hv
        apply fillnaV_numeric _ _ hm2num
        exact hC2num

/-- C7 witness: the spec §8 example has Dependents "3+"; its transformed
Dependents cell is the integer 3, and the whole column is integer-valued. -/
theorem C7_dependents_normalization_witness :
    (cleanedExample.get "Dependents")[0]? = some (Val.num 3) :=
  (C7_dependents_normalization (toDF exampleApplication) cleanedExample (by decide)).1
    0 (by decide)

/-! ## Toolbox: column tracking for the all-numeric claim -/

theorem cellOptNum_numOrNull (o : Option ℚ) : numOrNull (cellOptNum o) = true := by
  cases o <;> rfl

theorem mapNum_numOrNull (b : List LoanApplication) (f : LoanApplication → ℚ) :
    ∀ w ∈ b.map fun r => Val.num (f r), numOrNull w = true := by
  intro w hw
  obtain ⟨r, _, hmap⟩ := List.mem_map.1 hw
  rw [← hmap]
  rfl

theorem mapCellOptNum_numOrNull (b : List LoanApplication) (f : LoanApplication → Option ℚ) :
    ∀ w ∈ b.map fun r => cellOptNum (f r), numOrNull w = true := by
  intro w hw
  obtain ⟨r, _, hmap⟩ := List.mem_map.1 hw
  rw [← hmap]
  exact cellOptNum_numOrNull (f r)

theorem get_imputeLoanAmount_self (df : DF) (hc : df.hasCol "LoanAmount" = true) :
    (imputeLoanAmount df).get "LoanAmount" = imputedLoanCol (df.get "LoanAmount") := by
  unfold imputeLoanAmount
  rw [hc]
  simp only [if_true]
  exact DF.get_set_self _ _ _

theorem get_imputeCoapplicantIncome_self (df : DF)
    (hc : df.hasCol "CoapplicantIncome" = true) :
    (imputeCoapplicantIncome df).get "CoapplicantIncome" =
      fillnaV (Val.num 0) (df.get "CoapplicantIncome") := by
  unfold imputeCoapplicantIncome
  rw [hc]
  simp only [if_true]
  exact DF.get_set_self _ _ _

theorem get_coappRatioStep_self (df : DF)
    (hA : df.hasCol "ApplicantIncome" = true)
    (hC : df.hasCol "CoapplicantIncome" = true) :
    (coappRatioStep df).get "Applicant_to_Coapp_Ratio" =
      List.zipWith (fun a c => if c = Val.num 0 then a else divV a c)
        (df.get "ApplicantIncome") (df.get "CoapplicantIncome") := by
  unfold coappRatioStep
  rw [hA, hC]
  simp only [Bool.and_self, if_true]
  exact DF.get_set_self _ _ _

theorem hasCol_mapLoanStatus_self (df : DF) :
    (mapLoanStatus df).hasCol "Loan_Status" = df.hasCol "Loan_Status" := by
  unfold mapLoanStatus
  split
  · rename_i h
    rw [DF.hasCol_set_self, h]
  · rfl

theorem hasCol_propertyStep_PA (df : DF) :
    (propertyStep df).hasCol "Property_Area" = false := by
  unfold propertyStep
  cases h : df.hasCol "Property_Area" with
  | false =>
    simp only [Bool.false_eq_true, if_false]
    exact h
  | true =>
    simp only [if_true]
    show DF.hasCol ⟨_ ++ _⟩ _ = _
    unfold DF.hasCol
    rw [lookupCol_append]
    rw [show lookupCol "Property_Area" (DF.dropCols df ["Property_Area"]).cols = none from by
      unfold DF.dropCols
      exact lookupCol_filter_mem _ _ _ (by decide)]
    simp [lookupCol]

theorem encodeGender_numeric_any (df : DF) :
    ∀ v ∈ (encodeGender df).get "Gender", isNumV v = true := by
  cases h : df.hasCol "Gender" with
  | true => exact encodeGender_numeric df h
  | false =>
    intro v hv
    unfold encodeGender at hv
    rw [h] at hv
    simp only [Bool.false_eq_true, if_false] at hv
    rw [get_eq_nil_of_hasCol_false df _ h] at hv
    simp at hv

theorem encodeMarried_numeric_any (df : DF) :
    ∀ v ∈ (encodeMarried df).get "Married", isNumV v = true := by
  cases h : df.hasCol "Married" with
  | true => exact encodeMarried_numeric df h
  | false =>
    intro v hv
    unfold encodeMarried at hv
    rw [h] at hv
    simp only [Bool.false_eq_true, if_false] at hv
    rw [get_eq_nil_of_hasCol_false df _ h] at hv
    simp at hv

theorem encodeEducation_numeric_any (df : DF) :
    ∀ v ∈ (encodeEducation df).get "Education", isNumV v = true := by
  cases h : df.hasCol "Education" with
  | true => exact encodeEducation_numeric df h
  | false =>
    intro v hv
    unfold encodeEducation at hv
    rw [h] at hv
    simp only [Bool.false_eq_true, if_false] at hv
    rw [get_eq_nil_of_hasCol_false df _ h] at hv
    simp at hv

theorem encodeSelfEmployed_numeric_any (df : DF) :
    ∀ v ∈ (encodeSelfEmployed df).get "Self_Employed", isNumV v = true := by
  cases h : df.hasCol "Self_Employed" with
  | true => exact encodeSelfEmployed_numeric df h
  | false =>
    intro v hv
    unfold encodeSelfEmployed at hv
    rw [h] at hv
    simp only [Bool.false_eq_true, if_false] at hv
    rw [get_eq_nil_of_hasCol_false df _ h] at hv
    simp at hv

/-- Steps 5-10 leave a column untouched when it is none of the five columns
they impute. -/
theorem chain_df4_df10_get (df4 df7 df8 df9 df10 : DF)
    (h7 : imputeGender (imputeSelfEmployed (imputeCreditHistory df4)) = .ok df7)
    (h8 : imputeMarried df7 = .ok df8)
    (h9 : imputeDependentsNa df8 = .ok df9)
    (h10 : cleanupDependents df9 = .ok df10)
    (n : String) (hn1 : n ≠ "Credit_History") (hn2 : n ≠ "Self_Employed")
    (hn3 : n ≠ "Gender") (hn4 : n ≠ "Married") (hn5 : n ≠ "Dependents") :
    df10.get n = df4.get n := by
  rw [get_cleanupDependents _ _ _ h10 hn5, get_imputeDependentsNa _ _ _ h9 hn5,
    get_imputeMarried _ _ _ h8 hn4, get_imputeGender _ _ _ h7 hn3,
    get_imputeSelfEmployed _ _ hn2, get_imputeCreditHistory _ _ hn1]

theorem chain_df4_df10_has (df4 df7 df8 df9 df10 : DF)
    (h7 : imputeGender (imputeSelfEmployed (imputeCreditHistory df4)) = .ok df7)
    (h8 : imputeMarried df7 = .ok df8)
    (h9 : imputeDependentsNa df8 = .ok df9)
    (h10 : cleanupDependents df9 = .ok df10)
    (n : String) (hn1 : n ≠ "Credit_History") (hn2 : n ≠ "Self_Employed")
    (hn3 : n ≠ "Gender") (hn4 : n ≠ "Married") (hn5 : n ≠ "Dependents") :
    df10.hasCol n = df4.hasCol n := by
  rw [hasCol_cleanupDependents _ _ _ h10 hn5, hasCol_imputeDependentsNa _ _ _ h9 hn5,
    hasCol_imputeMarried _ _ _ h8 hn4, hasCol_imputeGender _ _ _ h7 hn3,
    hasCol_imputeSelfEmployed _ _ hn2, hasCol_imputeCreditHistory _ _ hn1]

/-- Steps 11-14 leave a column untouched when it is none of the five columns
they write. -/
theorem chain_df10_df14_get (df10 df14 : DF)
    (h14 : capApplicantIncome (coappRatioStep (loanRatioStep (addTotalIncome df10))) = .ok df14)
    (n : String) (hn1 : n ≠ "ApplicantIncome") (hn2 : n ≠ "Applicant_to_Coapp_Ratio")
    (hn3 : n ≠ "LoanAmount") (hn4 : n ≠ "Income_to_Loan_Ratio") (hn5 : n ≠ "TotalIncome") :
    df14.get n = df10.get n := by
  rw [get_capApplicantIncome _ _ _ h14 hn1, get_coappRatioStep _ _ hn2,
    get_loanRatioStep _ _ hn3 hn4, get_addTotalIncome _ _ hn5]

/-- The four encode steps and the LoanAmount cap leave the other columns
untouched. -/
theorem chain_encodes_get (df14 : DF) (n : String)
    (hn1 : n ≠ "LoanAmount") (hn2 : n ≠ "Gender") (hn3 : n ≠ "Married")
    (hn4 : n ≠ "Education") (hn5 : n ≠ "Self_Employed") :
    (encodeSelfEmployed (encodeEducation (encodeMarried (encodeGender
      (capLoanAmount df14))))).get n = df14.get n := by
  rw [get_encodeSelfEmployed _ _ hn5, get_encodeEducation _ _ hn4, get_encodeMarried _ _ hn3,
    get_encodeGender _ _ hn2, get_capLoanAmount _ _ hn1]

/-- The final property one-hot and label map leave the other columns
untouched. -/
theorem chain_out_get (d : DF) (n : String)
    (hn1 : n ≠ "Loan_Status") (hn2 : n ≠ "Property_Area") (hn3 : n ≠ "Property_Rural")
    (hn4 : n ≠ "Property_Semiurban") (hn5 : n ≠ "Property_Urban") :
    (mapLoanStatus (propertyStep d)).get n = d.get n := by
  rw [get_mapLoanStatus _ _ hn1, get_propertyStep _ _ hn2 hn3 hn4 hn5]

/-- The ApplicantIncome column after the Dependents step: the request
incomes with nulls filled by 0 (and there are no nulls to fill). -/
theorem AI_at_df10 (b : List LoanApplication) (df4 df7 df8 df9 df10 : DF)
    (h4 : imputeLoanAmountTerm (imputeCoapplicantIncome (imputeApplicantIncome
      (imputeLoanAmount (toDFBatch b)))) = .ok df4)
    (h7 : imputeGender (imputeSelfEmployed (imputeCreditHistory df4)) = .ok df7)
    (h8 : imputeMarried df7 = .ok df8)
    (h9 : imputeDependentsNa df8 = .ok df9)
    (h10 : cleanupDependents df9 = .ok df10) :
    df10.get "ApplicantIncome" =
      fillnaV (Val.num 0) (b.map fun r => Val.num r.ApplicantIncome) ∧
    df10.hasCol "ApplicantIncome" = true := by
  constructor
  · rw [chain_df4_df10_get df4 df7 df8 df9 df10 h7 h8 h9 h10 _
        (by decide) (by decide) (by decide) (by decide) (by decide),
      get_imputeLoanAmountTerm _ _ _ h4 (by decide),
      get_imputeCoapplicantIncome _ _ (by decide),
      get_imputeApplicantIncome_self _ (by
        rw [hasCol_imputeLoanAmount _ _ (by decide)]
        exact toDFBatch_hasCol_ApplicantIncome b),
      get_imputeLoanAmount _ _ (by decide), toDFBatch_get_ApplicantIncome]
  · rw [chain_df4_df10_has df4 df7 df8 df9 df10 h7 h8 h9 h10 _
        (by decide) (by decide) (by decide) (by decide) (by decide),
      hasCol_imputeLoanAmountTerm _ _ _ h4 (by decide),
      hasCol_imputeCoapplicantIncome _ _ (by decide),
      hasCol_imputeApplicantIncome_self, hasCol_imputeLoanAmount _ _ (by decide)]
    exact toDFBatch_hasCol_ApplicantIncome b

/-- The CoapplicantIncome column after the Dependents step. -/
theorem CoAI_at_df10 (b : List LoanApplication) (df4 df7 df8 df9 df10 : DF)
    (h4 : imputeLoanAmountTerm (imputeCoapplicantIncome (imputeApplicantIncome
      (imputeLoanAmount (toDFBatch b)))) = .ok df4)
    (h7 : imputeGender (imputeSelfEmployed (imputeCreditHistory df4)) = .ok df7)
    (h8 : imputeMarried df7 = .ok df8)
    (h9 : imputeDependentsNa df8 = .ok df9)
    (h10 : cleanupDependents df9 = .ok df10) :
    df10.get "CoapplicantIncome" =
      fillnaV (Val.num 0) (b.map fun r => Val.num r.CoapplicantIncome) ∧
    df10.hasCol "CoapplicantIncome" = true := by
  constructor
  · rw [chain_df4_df10_get df4 df7 df8 df9 df10 h7 h8 h9 h10 _
        (by decide) (by decide) (by decide) (by decide) (by decide),
      get_imputeLoanAmountTerm _ _ _ h4 (by decide),
      get_imputeCoapplicantIncome_self _ (by
        rw [hasCol_imputeApplicantIncome _ _ (by decide),
          hasCol_imputeLoanAmount _ _ (by decide)]
        exact toDFBatch_hasCol_CoapplicantIncome b),
      get_imputeApplicantIncome _ _ (by decide),
      get_imputeLoanAmount _ _ (by decide), toDFBatch_get_CoapplicantIncome]
  · rw [chain_df4_df10_has df4 df7 df8 df9 df10 h7 h8 h9 h10 _
        (by decide) (by decide) (by decide) (by decide) (by decide),
      hasCol_imputeLoanAmountTerm _ _ _ h4 (by decide),
      hasCol_imputeCoapplicantIncome_self, hasCol_imputeApplicantIncome _ _ (by decide),
      hasCol_imputeLoanAmount _ _ (by decide)]
    exact toDFBatch_hasCol_CoapplicantIncome b

/-- The LoanAmount column after the Dependents step: the median-imputed
request column. -/
theorem LA_at_df10 (b : List LoanApplication) (df4 df7 df8 df9 df10 : DF)
    (h4 : imputeLoanAmountTerm (imputeCoapplicantIncome (imputeApplicantIncome
      (imputeLoanAmount (toDFBatch b)))) = .ok df4)
    (h7 : imputeGender (imputeSelfEmployed (imputeCreditHistory df4)) = .ok df7)
    (h8 : imputeMarried df7 = .ok df8)
    (h9 : imputeDependentsNa df8 = .ok df9)
    (h10 : cleanupDependents df9 = .ok df10) :
    df10.get "LoanAmount" = imputedLoanCol (b.map fun r => cellOptNum r.LoanAmount) ∧
    df10.hasCol "LoanAmount" = true := by
  constructor
  · rw [chain_df4_df10_get df4 df7 df8 df9 df10 h7 h8 h9 h10 _
        (by decide) (by decide) (by decide) (by decide) (by decide),
      get_imputeLoanAmountTerm _ _ _ h4 (by decide),
      get_imputeCoapplicantIncome _ _ (by decide),
      get_imputeApplicantIncome _ _ (by decide),
      get_imputeLoanAmount_self _ (toDFBatch_hasCol_LoanAmount b),
      toDFBatch_get_LoanAmount]
  · rw [chain_df4_df10_has df4 df7 df8 df9 df10 h7 h8 h9 h10 _
        (by decide) (by decide) (by decide) (by decide) (by decide),
      hasCol_imputeLoanAmountTerm _ _ _ h4 (by decide),
      hasCol_imputeCoapplicantIncome _ _ (by decide),
      hasCol_imputeApplicantIncome _ _ (by decide), hasCol_imputeLoanAmount_self]
    exact toDFBatch_hasCol_LoanAmount b

/-- Every TotalIncome cell right after the TotalIncome step of an
inference batch is numeric. -/
theorem TI_at_df11 (b : List LoanApplication) (df4 df7 df8 df9 df10 : DF)
    (h4 : imputeLoanAmountTerm (imputeCoapplicantIncome (imputeApplicantIncome
      (imputeLoanAmount (toDFBatch b)))) = .ok df4)
    (h7 : imputeGender (imputeSelfEmployed (imputeCreditHistory df4)) = .ok df7)
    (h8 : imputeMarried df7 = .ok df8)
    (h9 : imputeDependentsNa df8 = .ok df9)
    (h10 : cleanupDependents df9 = .ok df10) :
    ∀ w ∈ (addTotalIncome df10).get "TotalIncome", isNumV w = true := by
  obtain ⟨hAIg, hAIh⟩ := AI_at_df10 b df4 df7 df8 df9 df10 h4 h7 h8 h9 h10
  obtain ⟨hCg, hCh⟩ := CoAI_at_df10 b df4 df7 df8 df9 df10 h4 h7 h8 h9 h10
  intro w hw
  rw [get_addTotalIncome_self, hAIh, hCh] at hw
  simp only [Bool.and_self, if_true] at hw
  obtain ⟨a, ha, c, hc, hfw⟩ := mem_zipWith _ _ _ w hw
  rw [hAIg] at ha
  rw [hCg] at hc
  have han := fillnaV_numeric (Val.num 0) _ rfl (mapNum_numOrNull b _) a ha
  have hcn := fillnaV_numeric (Val.num 0) _ rfl (mapNum_numOrNull b _) c hc
  cases a with
  | str s => simp [isNumV] at han
  | null => simp [isNumV] at han
  | num qa =>
    cases c with
    | str s => simp [isNumV] at hcn
    | null => simp [isNumV] at hcn
    | num qc =>
      rw [hfw]
      rfl

/-- Every Dependents cell of the transformed output is numeric (the
`astype(int)` at the end of the Dependents block). -/
theorem dependents_out_numeric (df8 df9 df10 df14 : DF)
    (h9 : imputeDependentsNa df8 = .ok df9)
    (h10 : cleanupDependents df9 = .ok df10)
    (h14 : capApplicantIncome (coappRatioStep (loanRatioStep (addTotalIncome df10))) = .ok df14) :
    ∀ v ∈ (mapLoanStatus (propertyStep (encodeSelfEmployed (encodeEducation (encodeMarried
      (encodeGender (capLoanAmount df14))))))).get "Dependents", isNumV v = true := by
  have hpost := postDependentsChain df10 df14 h14
  intro v hv
  rw [hpost] at hv
  cases hD : df8.hasCol "Dependents" with
  | false =>
    have h98 : df9 = df8 := imputeDependentsNa_absent df8 df9 h9 hD
    have h109 : df10 = df9 := cleanupDependents_absent df9 df10 h10 (by rw [h98]; exact hD)
    rw [h109, h98, get_eq_nil_of_hasCol_false df8 _ hD] at hv
    simp at hv
  | true =>
    obtain ⟨m1, hm1, hget9, hhas9⟩ := imputeDependentsNa_ok_self df8 df9 h9 hD
    have hC2num : ∀ w ∈ (df9.get "Dependents").map depCoerceV, numOrNull w = true := by
      intro w hw
      obtain ⟨u, hu, hmap⟩ := List.mem_map.1 hw
      rw [← hmap]
      exact depCoerceV_numOrNull u
    have hint : ∀ q : ℚ, isNumV (astypeIntV (Val.num q)) = true := by
      intro q
      obtain ⟨z, hz⟩ := astypeIntV_int q
      rw [hz]
      rfl
    rcases cleanupDependents_ok_self df9 df10 h10 hhas9 with
      ⟨hanyF, hget10⟩ | ⟨m2, hanyT, hm2, hget10⟩
    · rw [hget10] at hv
      refine map_numeric astypeIntV _ hint ?_ v hv
      intro w hw
      have hnn : isNullV w = false := by
        have := List.any_eq_false.1 (by simpa using hanyF) w hw
        simpa using this
      exact numOrNull_not_null w (hC2num w hw) hnn
    · rw [hget10] at hv
      have hm2num : isNumV m2 = true := by
        have hmem := mode_mem_nonNulls _ _ hm2
        exact numOrNull_not_null m2 (hC2num m2 (nonNulls_subset _ _ hmem))
          (nonNulls_not_null _ _ hmem)
      exact map_numeric astypeIntV _ hint (fillnaV_numeric _ _ hm2num hC2num) v hv

/-- The three one-hot property columns of the transformed output, as
indicator images of the Property_Area column. -/
theorem propertyOut_gets (df df4 df7 df8 df9 df10 df14 : DF)
    (h4 : imputeLoanAmountTerm
      (imputeCoapplicantIncome (imputeApplicantIncome (imputeLoanAmount df))) = .ok df4)
    (h7 : imputeGender (imputeSelfEmployed (imputeCreditHistory df4)) = .ok df7)
    (h8 : imputeMarried df7 = .ok df8)
    (h9 : imputeDependentsNa df8 = .ok df9)
    (h10 : cleanupDependents df9 = .ok df10)
    (h14 : capApplicantIncome (coappRatioStep (loanRatioStep (addTotalIncome df10))) = .ok df14)
    (hPA : df.hasCol "Property_Area" = true)
    (hR : df.hasCol "Property_Rural" = false)
    (hS : df.hasCol "Property_Semiurban" = false)
    (hU : df.hasCol "Property_Urban" = false) :
    (mapLoanStatus (propertyStep (encodeSelfEmployed (encodeEducation (encodeMarried
        (encodeGender (capLoanAmount df14))))))).get "Property_Rural" =
      ((encodeSelfEmployed (encodeEducation (encodeMarried (encodeGender
        (capLoanAmount df14))))).get "Property_Area").map (indicatorV "Rural") ∧
    (mapLoanStatus (propertyStep (encodeSelfEmployed (encodeEducation (encodeMarried
        (encodeGender (capLoanAmount df14))))))).get "Property_Semiurban" =
      ((encodeSelfEmployed (encodeEducation (encodeMarried (encodeGender
        (capLoanAmount df14))))).get "Property_Area").map (indicatorV "Semiurban") ∧
    (mapLoanStatus (propertyStep (encodeSelfEmployed (encodeEducation (encodeMarried
        (encodeGender (capLoanAmount df14))))))).get "Property_Urban" =
      ((encodeSelfEmployed (encodeEducation (encodeMarried (encodeGender
        (capLoanAmount df14))))).get "Property_Area").map (indicatorV "Urban") := by
  have hXPA : (encodeSelfEmployed (encodeEducation (encodeMarried (encodeGender
      (capLoanAmount df14))))).hasCol "Property_Area" = true := by
    rw [(prePropertyChain df df4 df7 df8 df9 df10 df14 h4 h7 h8 h9 h10 h14 "Property_Area"
      (by decide) (by decide) (by decide) (by decide) (by decide) (by decide) (by decide)
      (by decide) (by decide) (by decide) (by decide) (by decide) (by decide)).2]
    exact hPA
  have hXR : (encodeSelfEmployed (encodeEducation (encodeMarried (encodeGender
      (capLoanAmount df14))))).hasCol "Property_Rural" = false := by
    rw [(prePropertyChain df df4 df7 df8 df9 df10 df14 h4 h7 h8 h9 h10 h14 "Property_Rural"
      (by decide) (by decide) (by decide) (by decide) (by decide) (by decide) (by decide)
      (by decide) (by decide) (by decide) (by decide) (by decide) (by decide)).2]
    exact hR
  have hXS : (encodeSelfEmployed (encodeEducation (encodeMarried (encodeGender
      (capLoanAmount df14))))).hasCol "Property_Semiurban" = false := by
    rw [(prePropertyChain df df4 df7 df8 df9 df10 df14 h4 h7 h8 h9 h10 h14 "Property_Semiurban"
      (by decide) (by decide) (by decide) (by decide) (by decide) (by decide) (by decide)
      (by decide) (by decide) (by decide) (by decide) (by decide) (by decide)).2]
    exact hS
  have hXU : (encodeSelfEmployed (encodeEducation (encodeMarried (encodeGender
      (capLoanAmount df14))))).hasCol "Property_Urban" = false := by
    rw [(prePropertyChain df df4 df7 df8 df9 df10 df14 h4 h7 h8 h9 h10 h14 "Property_Urban"
      (by decide) (by decide) (by decide) (by decide) (by decide) (by decide) (by decide)
      (by decide) (by decide) (by decide) (by decide) (by decide) (by decide)).2]
    exact hU
  obtain ⟨hgR, hgS, hgU, _, _, _, _⟩ := propertyStep_self _ hXPA hXR hXS hXU
  refine ⟨?_, ?_, ?_⟩
  · rw [get_mapLoanStatus _ _ (by decide), hgR]
  · rw [get_mapLoanStatus _ _ (by decide), hgS]
  · rw [get_mapLoanStatus _ _ (by decide), hgU]

/-! ## Claim C3: every transformed value is numeric -/

/-- C3 counterexample: the claim fails as stated — the Loan_ID column
passes through the Transformer untouched, so the transformed output of the
spec §8 example still holds the string "LP001". -/
theorem C3_loan_id_string_counterexample :
    clean_raw_df (toDF exampleApplication) = .ok cleanedExample ∧
    Val.str "LP001" ∈ cleanedExample.get "Loan_ID" ∧
    isNumV (Val.str "LP001") = false := by decide

/-- C3 (amended): for an inference batch, every value of every column of
the transformed output other than the untouched Loan_ID identifier column
is numeric — no null and no string — provided the batch has at least one
non-null LoanAmount (else nulls survive `fillna(NaN)`) and the imputed
LoanAmount median is nonzero (else a zero divisor puts a NaN into
Income_to_Loan_Ratio). -/
theorem C3_numeric_except_loan_id (b : List LoanApplication) (out : DF)
    (hclean : clean_raw_df (toDFBatch b) = .ok out)
    (hLA : ∃ r ∈ b, r.LoanAmount ≠ none)
    (hmed : Col.median (imputedLoanCol (b.map fun r => cellOptNum r.LoanAmount)) ≠ Val.num 0) :
    ∀ n : String, n ≠ "Loan_ID" → ∀ v ∈ out.get n, isNumV v = true := by
  obtain ⟨df4, df7, df8, df9, df10, df14, h4, h7, h8, h9, h10, h14, hout⟩ :=
    clean_raw_df_parts (toDFBatch b) out hclean
  subst hout
  intro n hnid v hv
  by_cases hG : n = "Gender"
  · subst hG
    rw [chain_out_get _ _ (by decide) (by decide) (by decide) (by decide) (by decide),
      get_encodeSelfEmployed _ _ (by decide), get_encodeEducation _ _ (by decide),
      get_encodeMarried _ _ (by decide)] at hv
    exact encodeGender_numeric_any _ v hv
  by_cases hM : n = "Married"
  · subst hM
    rw [chain_out_get _ _ (by decide) (by decide) (by decide) (by decide) (by decide),
      get_encodeSelfEmployed _ _ (by decide), get_encodeEducation _ _ (by decide)] at hv
    exact encodeMarried_numeric_any _ v hv
  by_cases hE : n = "Education"
  · subst hE
    rw [chain_out_get _ _ (by decide) (by decide) (by decide) (by decide) (by decide),
      get_encodeSelfEmployed _ _ (by decide)] at hv
    exact encodeEducation_numeric_any _ v hv
  by_cases hSE : n = "Self_Employed"
  · subst hSE
    rw [chain_out_get _ _ (by decide) (by decide) (by decide) (by decide) (by decide)] at hv
    exact encodeSelfEmployed_numeric_any _ v hv
  by_cases hDep : n = "Dependents"
  · subst hDep
    exact dependents_out_numeric df8 df9 df10 df14 h9 h10 h14 v hv
  by_cases hAIn : n = "ApplicantIncome"
  · subst hAIn
    obtain ⟨hAIg, hAIh⟩ := AI_at_df10 b df4 df7 df8 df9 df10 h4 h7 h8 h9 h10
    have hpreh : (coappRatioStep (loanRatioStep (addTotalIncome df10))).hasCol
        "ApplicantIncome" = true := by
      rw [hasCol_coappRatioStep _ _ (by decide), hasCol_loanRatioStep _ _ (by decide) (by decide),
        hasCol_addTotalIncome _ _ (by decide), hAIh]
    obtain ⟨cap, hcap, h14g⟩ := capApplicantIncome_ok_self _ df14 h14 hpreh
    rw [chain_out_get _ _ (by decide) (by decide) (by decide) (by decide) (by decide),
      chain_encodes_get _ _ (by decide) (by decide) (by decide) (by decide) (by decide),
      h14g, get_coappRatioStep _ _ (by decide), get_loanRatioStep _ _ (by decide) (by decide),
      get_addTotalIncome _ _ (by decide), hAIg] at hv
    refine map_numeric _ _ (fun q => ?_)
      (fillnaV_numeric (Val.num 0) _ rfl (mapNum_numOrNull b _)) v hv
    show isNumV (if cap < q then Val.num (qtrunc cap) else Val.num q) = true
    split <;> rfl
  by_cases hCoAI : n = "CoapplicantIncome"
  · subst hCoAI
    obtain ⟨hCg, hCh⟩ := CoAI_at_df10 b df4 df7 df8 df9 df10 h4 h7 h8 h9 h10
    rw [chain_out_get _ _ (by decide) (by decide) (by decide) (by decide) (by decide),
      chain_encodes_get _ _ (by decide) (by decide) (by decide) (by decide) (by decide),
      chain_df10_df14_get df10 df14 h14 _ (by decide) (by decide) (by decide) (by decide)
        (by decide),
      hCg] at hv
    exact fillnaV_numeric (Val.num 0) _ rfl (mapNum_numOrNull b _) v hv
  by_cases hLAn : n = "LoanAmount"
  · subst hLAn
    obtain ⟨hLAg, hLAh⟩ := LA_at_df10 b df4 df7 df8 df9 df10 h4 h7 h8 h9 h10
    have hsome : ∃ q, Val.num q ∈ b.map fun r => cellOptNum r.LoanAmount := by
      obtain ⟨r, hr, hne⟩ := hLA
      cases hq : r.LoanAmount with
      | none => exact absurd hq hne
      | some q => exact ⟨q, List.mem_map.2 ⟨r, hr, by rw [hq]; rfl⟩⟩
    have hLAnum : ∀ w ∈ imputedLoanCol (b.map fun r => cellOptNum r.LoanAmount),
        isNumV w = true :=
      imputedLoanCol_numeric _ (mapCellOptNum_numOrNull b _) hsome
    have h11h : (addTotalIncome df10).hasCol "LoanAmount" = true := by
      rw [hasCol_addTotalIncome _ _ (by decide), hLAh]
    rw [chain_out_get _ _ (by decide) (by decide) (by decide) (by decide) (by decide),
      get_encodeSelfEmployed _ _ (by decide), get_encodeEducation _ _ (by decide),
      get_encodeMarried _ _ (by decide), get_encodeGender _ _ (by decide)] at hv
    refine capLoanAmount_numeric df14 ?_ v hv
    intro w hw
    rw [get_capApplicantIncome _ _ _ h14 (by decide), get_coappRatioStep _ _ (by decide),
      get_loanRatioStep_loan _ h11h, get_addTotalIncome _ _ (by decide), hLAg] at hw
    exact loanColAtDivision_numeric _ hLAnum w hw
  by_cases hLAT : n = "Loan_Amount_Term"
  · subst hLAT
    have hd3h : (imputeCoapplicantIncome (imputeApplicantIncome (imputeLoanAmount
        (toDFBatch b)))).hasCol "Loan_Amount_Term" = true := by
      rw [hasCol_imputeCoapplicantIncome _ _ (by decide),
        hasCol_imputeApplicantIncome _ _ (by decide), hasCol_imputeLoanAmount _ _ (by decide)]
      exact toDFBatch_hasCol_LoanAmountTerm b
    have hd3g : (imputeCoapplicantIncome (imputeApplicantIncome (imputeLoanAmount
        (toDFBatch b)))).get "Loan_Amount_Term" =
        b.map fun r => cellOptNum r.Loan_Amount_Term := by
      rw [get_imputeCoapplicantIncome _ _ (by decide), get_imputeApplicantIncome _ _ (by decide),
        get_imputeLoanAmount _ _ (by decide), toDFBatch_get_LoanAmountTerm]
    obtain ⟨m, hm, h4g, _⟩ := imputeLoanAmountTerm_ok_self _ df4 h4 hd3h
    rw [hd3g] at hm h4g
    have hmnum : isNumV m = true := by
      have hmem := mode_mem_nonNulls _ _ hm
      exact numOrNull_not_null m (mapCellOptNum_numOrNull b _ m (nonNulls_subset _ _ hmem))
        (nonNulls_not_null _ _ hmem)
    rw [chain_out_get _ _ (by decide) (by decide) (by decide) (by decide) (by decide),
      chain_encodes_get _ _ (by decide) (by decide) (by decide) (by decide) (by decide),
      chain_df10_df14_get df10 df14 h14 _ (by decide) (by decide) (by decide) (by decide)
        (by decide),
      chain_df4_df10_get df4 df7 df8 df9 df10 h7 h8 h9 h10 _ (by decide) (by decide)
        (by decide) (by decide) (by decide),
      h4g] at hv
    exact fillnaV_numeric _ _ hmnum (mapCellOptNum_numOrNull b _) v hv
  by_cases hCH : n = "Credit_History"
  · subst hCH
    have h4h : df4.hasCol "Credit_History" = true := by
      rw [hasCol_imputeLoanAmountTerm _ _ _ h4 (by decide),
        hasCol_imputeCoapplicantIncome _ _ (by decide),
        hasCol_imputeApplicantIncome _ _ (by decide), hasCol_imputeLoanAmount _ _ (by decide)]
      exact toDFBatch_hasCol_CreditHistory b
    have h4g : df4.get "Credit_History" = b.map fun r => cellOptNum r.Credit_History := by
      rw [get_imputeLoanAmountTerm _ _ _ h4 (by decide),
        get_imputeCoapplicantIncome _ _ (by decide), get_imputeApplicantIncome _ _ (by decide),
        get_imputeLoanAmount _ _ (by decide), toDFBatch_get_CreditHistory]
    have hnum5 : ∀ w ∈ (imputeCreditHistory df4).get "Credit_History", isNumV w = true := by
      apply imputeCreditHistory_numeric df4 h4h
      rw [h4g]
      exact mapCellOptNum_numOrNull b _
    rw [chain_out_get _ _ (by decide) (by decide) (by decide) (by decide) (by decide),
      chain_encodes_get _ _ (by decide) (by decide) (by decide) (by decide) (by decide),
      chain_df10_df14_get df10 df14 h14 _ (by decide) (by decide) (by decide) (by decide)
        (by decide),
      get_cleanupDependents _ _ _ h10 (by decide), get_imputeDependentsNa _ _ _ h9 (by decide),
      get_imputeMarried _ _ _ h8 (by decide), get_imputeGender _ _ _ h7 (by decide),
      get_imputeSelfEmployed _ _ (by decide)] at hv
    exact hnum5 v hv
  by_cases hTI : n = "TotalIncome"
  · subst hTI
    rw [chain_out_get _ _ (by decide) (by decide) (by decide) (by decide) (by decide),
      chain_encodes_get _ _ (by decide) (by decide) (by decide) (by decide) (by decide),
      get_capApplicantIncome _ _ _ h14 (by decide), get_coappRatioStep _ _ (by decide),
      get_loanRatioStep _ _ (by decide) (by decide)] at hv
    exact TI_at_df11 b df4 df7 df8 df9 df10 h4 h7 h8 h9 h10 v hv
  by_cases hILR : n = "Income_to_Loan_Ratio"
  · subst hILR
    obtain ⟨hLAg, hLAh⟩ := LA_at_df10 b df4 df7 df8 df9 df10 h4 h7 h8 h9 h10
    have hsome : ∃ q, Val.num q ∈ b.map fun r => cellOptNum r.LoanAmount := by
      obtain ⟨r, hr, hne⟩ := hLA
      cases hq : r.LoanAmount with
      | none => exact absurd hq hne
      | some q => exact ⟨q, List.mem_map.2 ⟨r, hr, by rw [hq]; rfl⟩⟩
    have h11h : (addTotalIncome df10).hasCol "LoanAmount" = true := by
      rw [hasCol_addTotalIncome _ _ (by decide), hLAh]
    rw [chain_out_get _ _ (by decide) (by decide) (by decide) (by decide) (by decide),
      chain_encodes_get _ _ (by decide) (by decide) (by decide) (by decide) (by decide),
      get_capApplicantIncome _ _ _ h14 (by decide), get_coappRatioStep _ _ (by decide),
      get_loanRatioStep_ratio, h11h] at hv
    simp only [if_true] at hv
    obtain ⟨a, ha, c, hc, hfv⟩ := mem_zipWith _ _ _ v hv
    have han := TI_at_df11 b df4 df7 df8 df9 df10 h4 h7 h8 h9 h10 a ha
    rw [get_addTotalIncome _ _ (by decide), hLAg] at hc
    obtain ⟨q, hq, hq0⟩ := loanColAtDivision_num_nonzero _
      (imputedLoanCol_numeric _ (mapCellOptNum_numOrNull b _) hsome) hmed c hc
    cases a with
    | str s => simp [isNumV] at han
    | null => simp [isNumV] at han
    | num qa =>
      rw [hfv, hq]
      show isNumV (if q = 0 then Val.null else Val.num (qa / q)) = true
      rw [if_neg hq0]
      rfl
  by_cases hA2C : n = "Applicant_to_Coapp_Ratio"
  · subst hA2C
    obtain ⟨hAIg, hAIh⟩ := AI_at_df10 b df4 df7 df8 df9 df10 h4 h7 h8 h9 h10
    obtain ⟨hCg, hCh⟩ := CoAI_at_df10 b df4 df7 df8 df9 df10 h4 h7 h8 h9 h10
    have h12A : (loanRatioStep (addTotalIncome df10)).hasCol "ApplicantIncome" = true := by
      rw [hasCol_loanRatioStep _ _ (by decide) (by decide),
        hasCol_addTotalIncome _ _ (by decide), hAIh]
    have h12C : (loanRatioStep (addTotalIncome df10)).hasCol "CoapplicantIncome" = true := by
      rw [hasCol_loanRatioStep _ _ (by decide) (by decide),
        hasCol_addTotalIncome _ _ (by decide), hCh]
    rw [chain_out_get _ _ (by decide) (by decide) (by decide) (by decide) (by decide),
      chain_encodes_get _ _ (by decide) (by decide) (by decide) (by decide) (by decide),
      get_capApplicantIncome _ _ _ h14 (by decide),
      get_coappRatioStep_self _ h12A h12C,
      get_loanRatioStep _ _ (by decide) (by decide), get_addTotalIncome _ _ (by decide), hAIg,
      get_loanRatioStep _ _ (by decide) (by decide), get_addTotalIncome _ _ (by decide),
      hCg] at hv
    obtain ⟨a, ha, c, hc, hfv⟩ := mem_zipWith _ _ _ v hv
    have han := fillnaV_numeric (Val.num 0) _ rfl (mapNum_numOrNull b _) a ha
    have hcn := fillnaV_numeric (Val.num 0) _ rfl (mapNum_numOrNull b _) c hc
    rw [hfv]
    show isNumV (if c = Val.num 0 then a else divV a c) = true
    by_cases hc0 : c = Val.num 0
    · rw [if_pos hc0]
      exact han
    · rw [if_neg hc0]
      cases a with
      | str s => simp [isNumV] at han
      | null => simp [isNumV] at han
      | num qa =>
        cases c with
        | str s => simp [isNumV] at hcn
        | null => simp [isNumV] at hcn
        | num qc =>
          have hqc : qc ≠ 0 := fun h => hc0 (by rw [h])
          show isNumV (if qc = 0 then Val.null else Val.num (qa / qc)) = true
          rw [if_neg hqc]
          rfl
  by_cases hPR : n = "Property_Rural"
  · subst hPR
    obtain ⟨hg, _, _⟩ := propertyOut_gets (toDFBatch b) df4 df7 df8 df9 df10 df14
      h4 h7 h8 h9 h10 h14 (toDFBatch_hasCol_PropertyArea b)
      (toDFBatch_hasCol_absent b _ (by decide) (by decide) (by decide) (by decide) (by decide)
        (by decide) (by decide) (by decide) (by decide) (by decide) (by decide) (by decide))
      (toDFBatch_hasCol_absent b _ (by decide) (by decide) (by decide) (by decide) (by decide)
        (by decide) (by decide) (by decide) (by decide) (by decide) (by decide) (by decide))
      (toDFBatch_hasCol_absent b _ (by decide) (by decide) (by decide) (by decide) (by decide)
        (by decide) (by decide) (by decide) (by decide) (by decide) (by decide) (by decide))
    rw [hg] at hv
    obtain ⟨w, hw, hmap⟩ := List.mem_map.1 hv
    rw [← hmap]
    exact indicatorV_numeric _ _
  by_cases hPS : n = "Property_Semiurban"
  · subst hPS
    obtain ⟨_, hg, _⟩ := propertyOut_gets (toDFBatch b) df4 df7 df8 df9 df10 df14
      h4 h7 h8 h9 h10 h14 (toDFBatch_hasCol_PropertyArea b)
      (toDFBatch_hasCol_absent b _ (by decide) (by decide) (by decide) (by decide) (by decide)
        (by decide) (by decide) (by decide) (by decide) (by decide) (by decide) (by decide))
      (toDFBatch_hasCol_absent b _ (by decide) (by decide) (by decide) (by decide) (by decide)
        (by decide) (by decide) (by decide) (by decide) (by decide) (by decide) (by decide))
      (toDFBatch_hasCol_absent b _ (by decide) (by decide) (by decide) (by decide) (by decide)
        (by decide) (by decide) (by decide) (by decide) (by decide) (by decide) (by decide))
    rw [hg] at hv
    obtain ⟨w, hw, hmap⟩ := List.mem_map.1 hv
    rw [← hmap]
    exact indicatorV_numeric _ _
  by_cases hPU : n = "Property_Urban"
  · subst hPU
    obtain ⟨_, _, hg⟩ := propertyOut_gets (toDFBatch b) df4 df7 df8 df9 df10 df14
      h4 h7 h8 h9 h10 h14 (toDFBatch_hasCol_PropertyArea b)
      (toDFBatch_hasCol_absent b _ (by decide) (by decide) (by decide) (by decide) (by decide)
        (by decide) (by decide) (by decide) (by decide) (by decide) (by decide) (by decide))
      (toDFBatch_hasCol_absent b _ (by decide) (by decide) (by decide) (by decide) (by decide)
        (by decide) (by decide) (by decide) (by decide) (by decide) (by decide) (by decide))
      (toDFBatch_hasCol_absent b _ (by decide) (by decide) (by decide) (by decide) (by decide)
        (by decide) (by decide) (by decide) (by decide) (by decide) (by decide) (by decide))
    rw [hg] at hv
    obtain ⟨w, hw, hmap⟩ := List.mem_map.1 hv
    rw [← hmap]
    exact indicatorV_numeric _ _
  by_cases hPA : n = "Property_Area"
  · subst hPA
    rw [get_mapLoanStatus _ _ (by decide),
      get_eq_nil_of_hasCol_false _ _ (hasCol_propertyStep_PA _)] at hv
    simp at hv
  by_cases hLS : n = "Loan_Status"
  · subst hLS
    have hf : (mapLoanStatus (propertyStep (encodeSelfEmployed (encodeEducation (encodeMarried
        (encodeGender (capLoanAmount df14))))))).hasCol "Loan_Status" = false := by
      rw [hasCol_mapLoanStatus_self,
        hasCol_propertyStep _ _ (by decide) (by decide) (by decide) (by decide),
        (prePropertyChain _ df4 df7 df8 df9 df10 df14 h4 h7 h8 h9 h10 h14 "Loan_Status"
          (by decide) (by decide) (by decide) (by decide) (by decide) (by decide) (by decide)
          (by decide) (by decide) (by decide) (by decide) (by decide) (by decide)).2]
      exact toDFBatch_hasCol_absent b _ (by decide) (by decide) (by decide) (by decide)
        (by decide) (by decide) (by decide) (by decide) (by decide) (by decide) (by decide)
        (by decide)
    rw [get_eq_nil_of_hasCol_false _ _ hf] at hv
    simp at hv
  have hf : (mapLoanStatus (propertyStep (encodeSelfEmployed (encodeEducation (encodeMarried
      (encodeGender (capLoanAmount df14))))))).hasCol n = false := by
    rw [hasCol_mapLoanStatus _ _ hLS, hasCol_propertyStep _ _ hPA hPR hPS hPU,
      (prePropertyChain _ df4 df7 df8 df9 df10 df14 h4 h7 h8 h9 h10 h14 n
        hLAn hAIn hCoAI hLAT hCH hSE hG hM hDep hTI hILR hA2C hE).2]
    exact toDFBatch_hasCol_absent b n hnid hG hM hDep hE hSE hAIn hCoAI hLAn hLAT hCH hPA
  rw [get_eq_nil_of_hasCol_false _ _ hf] at hv
  simp at hv

/-- C3 witness: the amended theorem applied to the one-record batch of the
spec §8 example, at the derived TotalIncome column. -/
theorem C3_numeric_except_loan_id_witness :
    (∃ r ∈ [exampleApplication], r.LoanAmount ≠ none) ∧
    Col.median (imputedLoanCol ([exampleApplication].map fun r => cellOptNum r.LoanAmount))
      ≠ Val.num 0 ∧
    ∀ v ∈ cleanedExample.get "TotalIncome", isNumV v = true :=
  ⟨by decide, by decide,
    C3_numeric_except_loan_id [exampleApplication] cleanedExample (by decide)
      (by decide) (by decide) "TotalIncome" (by decide)⟩
